import Mathlib

set_option maxRecDepth 8000

/-!
Verification of the static menu-page renderer of the QR-café-menu service
(`services/menuGenerator.js`, class `MenuGenerator`) and of the public
menu route (`routes/public.js`).

Strings are modelled as `List Char` (`Str`).  Every template literal of the
source is embedded byte-for-byte, split into named pieces (`pm…`, `m…`, …)
whose concatenation, in order, is exactly the source template text.  JavaScript
string falsiness (`undefined`/`null`/`''`) is modelled by `Option Str` fields
together with `truthy`/`jsOr`; `x || d` is `jsOr x d`.
-/

/-- Strings of the JavaScript program, modelled as lists of characters. -/
abbrev Str := List Char

/-- Number of (possibly overlapping) occurrences of the pattern `p` in `s`. -/
def countOcc (p : Str) : Str → Nat
  | [] => 0
  | x :: xs => (if p.isPrefixOf (x :: xs) then 1 else 0) + countOcc p xs

/-- No nonempty proper suffix of `a` shorter than `p` starts an occurrence
of `p`; under this condition occurrences of `p` cannot straddle the border
of `a ++ b`, so `countOcc` distributes over the append. -/
def dangerFree (p a : Str) : Prop :=
  ∀ s : Str, s <:+ a → s ≠ [] → s.length < p.length → ¬ s <+: p

/-- JavaScript truthiness of a possibly-absent string value
(`undefined`, `null` and `''` are falsy). -/
def truthy : Option Str → Bool
  | some s => !s.isEmpty
  | none => false

/-- JavaScript `x || d` for a possibly-absent string `x`. -/
def jsOr : Option Str → Str → Str
  | some s, d => if s.isEmpty then d else s
  | none, d => d

/-- The raw string value of a field (used where the source interpolates the
field itself inside a branch guarded by its truthiness). -/
def rawStr (v : Option Str) : Str := v.getD []

/-- JavaScript truthiness of a number field (`undefined`, `null`, `0` falsy). -/
def truthyRat : Option Rat → Bool
  | some q => decide (q ≠ 0)
  | none => false

/-- JavaScript truthiness of an integer field (`undefined`, `null`, `0` falsy). -/
def truthyNat : Option Nat → Bool
  | some n => decide (n ≠ 0)
  | none => false

/-- The decimal digit character for `d < 10`. -/
def digitChar (d : Nat) : Char := Char.ofNat (48 + d)

/-- Decimal rendering of a natural number (JavaScript `String(n)` for the
integer values stored in the database); fuel-based for kernel reducibility. -/
def natToStrAux : Nat → Nat → Str
  | 0, _ => []
  | fuel + 1, n =>
    if n < 10 then [digitChar n]
    else natToStrAux fuel (n / 10) ++ [digitChar (n % 10)]

/-- Decimal rendering of a natural number. -/
def natToStr (n : Nat) : Str := natToStrAux (n + 1) n

/-- Rendering of the `item.calories` interpolation (`${item.calories}`). -/
def natStrOpt : Option Nat → Str
  | some n => natToStr n
  | none => []

/-- The integer `n` with `n / 10^2` closest to `x`, ties towards the larger
`n`, for `x ≥ 0`: the rounding of ECMAScript `toFixed(2)`. -/
def toFixed2Nat (x : Rat) : Nat := (x * 100 + 1 / 2).floor.toNat

/-- `toFixed(2)` of a nonnegative number. -/
def jsToFixed2Pos (x : Rat) : Str :=
  let n := toFixed2Nat x
  natToStr (n / 100) ++ ('.' :: [digitChar (n % 100 / 10), digitChar (n % 10)])

/-- ECMAScript `Number.prototype.toFixed(2)`, modelled on the exact rationals
denoted by the program's finite numbers (magnitudes below `10^21`, where
`toFixed` produces fixed-point notation): round to the integer `n` with
`n / 100` closest to `x`, ties to the larger `n`, negative numbers via
sign-split as in the ECMA-262 algorithm. -/
def jsToFixed2 (x : Rat) : Str :=
  if x < 0 then '-' :: jsToFixed2Pos (-x) else jsToFixed2Pos x

/-- The text produced by `parseFloat(price).toFixed(2)`: a missing value gives
`parseFloat(undefined) = NaN`, and `NaN.toFixed(2) = "NaN"`. -/
def jsPriceStr : Option Rat → Str
  | some q => jsToFixed2 q
  | none => ("NaN").toList

/-- One global replacement of the single-character pattern `c` by `r`
(JavaScript `String.prototype.replace` with a global one-character regex:
each occurrence in the original string is replaced once, replacements are
not rescanned). -/
def replaceAllChar (c : Char) (r : Str) : Str → Str
  | [] => []
  | x :: xs => (if x = c then r else [x]) ++ replaceAllChar c r xs

/-- `MenuGenerator.escapeHtml`: falsy input gives `''`; otherwise the five
global replacements `&`→`&amp;`, `<`→`&lt;`, `>`→`&gt;`, `"`→`&quot;`,
`'`→`&#039;`, chained in exactly that order. -/
def escapeHtml (text : Str) : Str :=
  if text.isEmpty then [] else
  replaceAllChar '\x27' ("&#039;").toList
    (replaceAllChar '"' ("&quot;").toList
      (replaceAllChar '>' ("&gt;").toList
        (replaceAllChar '<' ("&lt;").toList
          (replaceAllChar '&' ("&amp;").toList text))))

/-- `escapeHtml` applied to a possibly-absent field (JavaScript passes the
field itself; `undefined` is falsy and yields `''`). -/
def escapeHtmlOpt (v : Option Str) : Str := escapeHtml (rawStr v)

/-- The per-character form of the escaping transform (proved below to agree
with the chained-replacement form). -/
def escChar (ch : Char) : Str :=
  if ch = '&' then ("&amp;").toList
  else if ch = '<' then ("&lt;").toList
  else if ch = '>' then ("&gt;").toList
  else if ch = '"' then ("&quot;").toList
  else if ch = '\x27' then ("&#039;").toList
  else [ch]

/-- Character-wise escaping (helper for reasoning about `escapeHtml`). -/
def escapeStr : Str → Str
  | [] => []
  | ch :: s => escChar ch ++ escapeStr s

/-- The café record, restricted to the columns the renderer reads.  Absent /
NULL columns are `none`. -/
structure Cafe where
  name : Option Str
  slug : Option Str
  tagline : Option Str
  description : Option Str
  logo : Option Str
  phone : Option Str
  email : Option Str
  address : Option Str
  website : Option Str
  instagram : Option Str
  facebook : Option Str
  currency : Option Str
  primary_color : Option Str
  secondary_color : Option Str
  accent_color : Option Str
  background_color : Option Str
  text_color : Option Str

/-- A menu item row as the renderer reads it. -/
structure Item where
  name : Option Str
  description : Option Str
  price : Option Rat
  original_price : Option Rat
  image : Option Str
  calories : Option Nat
  is_vegan : Bool
  is_vegetarian : Bool
  is_gluten_free : Bool
  is_spicy : Bool
  is_bestseller : Bool
  is_new : Bool

/-- A category row as the renderer reads it; `id` is the database integer as
interpolated (its decimal digits); `items` is the grouped item list attached
by the caller — rows coming straight from the categories table have no
`items` field at all, modelled by `none`. -/
structure Category where
  id : Str
  name : Option Str
  icon : Option Str
  description : Option Str
  items : Option (List Item)

/-- JavaScript truthiness of `cat.items && cat.items.length > 0`. -/
def truthyItems : Option (List Item) → Bool
  | some l => decide (0 < l.length)
  | none => false
-- Template literal pieces, extracted byte-for-byte from the source template strings.

def pm1 : Str := ("<!DOCTYPE html>\n<html lang=\"en\">\n<head>\n    <meta charset=\"UTF-8\">\n    <meta name=\"viewport\" content=\"width=device-width, initial-scale=1.0\">\n    <title>").toList

def pm2 : Str := (" - Menu</title>\n    <meta name=\"description\" content=\"").toList

def pm3 : Str := ("\">\n    <link rel=\"preconnect\" href=\"https://fonts.googleapis.com\">\n    <link rel=\"preconnect\" href=\"https://fonts.gstatic.com\" crossorigin>\n    <link href=\"https://fonts.googleapis.com/css2?family=Playfair+Display:wght@400;500;600;700&family=Poppins:wght@300;400;500;600&display=swap\" rel=\"stylesheet\">\n    <style>\n        :root \x7b\n            ").toList

def mVarPrim : Str := ("--primary: ").toList

def mSemi : Str := (";").toList

def pm4 : Str := ("\n            ").toList

def mVarSec : Str := ("--secondary: ").toList

def mVarAcc : Str := ("--accent: ").toList

def mVarBg : Str := ("--background: ").toList

def mVarTxt : Str := ("--text: ").toList

def pm8 : Str := ("\n            --white: #FFFFFF;\n            --shadow: rgba(0,0,0,0.1);\n        \x7d\n        \n        * \x7b\n            margin: 0;\n            padding: 0;\n            box-sizing: border-box;\n        \x7d\n        \n        body \x7b\n            font-family: \x27Poppins\x27, sans-serif;\n            background: var(--background);\n            color: var(--text);\n            line-height: 1.6;\n            min-height: 100vh;\n        \x7d\n        \n        /* Header */\n        .header \x7b\n            background: linear-gradient(135deg, var(--primary) 0%, var(--secondary) 100%);\n            padding: 2rem 1rem;\n            text-align: center;\n            color: var(--white);\n            position: relative;\n            overflow: hidden;\n        \x7d\n        \n        .header::before \x7b\n            content: \x27\x27;\n            position: absolute;\n            top: 0;\n            left: ").toList

def pm9 : Str := ("0;\n            right: 0;\n            bottom: 0;\n            background: url(\x27data:image/svg+xml,<svg xmlns=\"http://www.w3.org/2000/svg\" viewBox=\"0 0 100 100\"><circle cx=\"50\" cy=\"50\" r=\"40\" fill=\"none\" stroke=\"white\" stroke-width=\"0.5\" opacity=\"0.1\"/></svg>\x27);\n            opacity: 0.3;\n        \x7d\n        \n        .logo \x7b\n            width: 100px;\n            height: 100px;\n            border-radius: 50%;\n            object-fit: cover;\n            border: 4px solid var(--white);\n            margin-bottom: 1rem;\n            position: relative;\n            z-index: 1;\n        \x7d\n        \n        .logo-placeholder \x7b\n            width: 100px;\n            height: 100px;\n            border-radius: 50%;\n            background: var(--white);\n            display: flex;\n            align-items: center;\n            justify-content: center;\n            m").toList

def pm10 : Str := ("argin: 0 auto 1rem;\n            font-size: 2.5rem;\n            color: var(--primary);\n            position: relative;\n            z-index: 1;\n        \x7d\n        \n        .cafe-name \x7b\n            font-family: \x27Playfair Display\x27, serif;\n            font-size: 2rem;\n            font-weight: 600;\n            margin-bottom: 0.5rem;\n            position: relative;\n            z-index: 1;\n        \x7d\n        \n        .tagline \x7b\n            font-size: 1rem;\n            opacity: 0.9;\n            position: relative;\n            z-index: 1;\n        \x7d\n        \n        /* Contact Bar */\n        .contact-bar \x7b\n            background: var(--white);\n            padding: 0.75rem 1rem;\n            display: flex;\n            justify-content: center;\n            gap: 1.5rem;\n            flex-wrap: wrap;\n            box-shadow: 0 2px 10px var(--shadow);\n        ").toList

def pm11 : Str := ("\x7d\n        \n        .contact-item \x7b\n            display: flex;\n            align-items: center;\n            gap: 0.5rem;\n            font-size: 0.85rem;\n            color: var(--text);\n            text-decoration: none;\n        \x7d\n        \n        .contact-item:hover \x7b\n            color: var(--primary);\n        \x7d\n        \n        .contact-item svg \x7b\n            width: 18px;\n            height: 18px;\n            fill: var(--primary);\n        \x7d\n        \n        /* Categories Navigation */\n        .categories-nav \x7b\n            background: var(--white);\n            padding: 1rem;\n            position: sticky;\n            top: 0;\n            z-index: 100;\n            box-shadow: 0 2px 10px var(--shadow);\n            overflow-x: auto;\n            -webkit-overflow-scrolling: touch;\n        \x7d\n        \n        .categories-nav::-webkit-scrollbar \x7b\n  ").toList

def pm12 : Str := ("          display: none;\n        \x7d\n        \n        .nav-container \x7b\n            display: flex;\n            gap: 0.5rem;\n            justify-content: flex-start;\n            min-width: max-content;\n            padding: 0 0.5rem;\n        \x7d\n        \n        .category-btn \x7b\n            padding: 0.6rem 1.2rem;\n            border: 2px solid var(--primary);\n            background: transparent;\n            color: var(--primary);\n            border-radius: 25px;\n            font-size: 0.9rem;\n            cursor: pointer;\n            transition: all 0.3s ease;\n            white-space: nowrap;\n            font-family: \x27Poppins\x27, sans-serif;\n        \x7d\n        \n        .category-btn:hover,\n        .category-btn.active \x7b\n            background: var(--primary);\n            color: var(--white);\n        \x7d\n        \n        /* Menu Container */\n        .me").toList

def pm13 : Str := ("nu-container \x7b\n            max-width: 800px;\n            margin: 0 auto;\n            padding: 1.5rem;\n        \x7d\n        \n        /* Category Section */\n        .category-section \x7b\n            margin-bottom: 2rem;\n        \x7d\n        \n        .category-title \x7b\n            font-family: \x27Playfair Display\x27, serif;\n            font-size: 1.5rem;\n            color: var(--secondary);\n            margin-bottom: 1rem;\n            padding-bottom: 0.5rem;\n            border-bottom: 2px solid var(--accent);\n            display: flex;\n            align-items: center;\n            gap: 0.75rem;\n        \x7d\n        \n        .category-icon \x7b\n            font-size: 1.5rem;\n        \x7d\n        \n        /* Menu Items */\n        .menu-items \x7b\n            display: flex;\n            flex-direction: column;\n            gap: 1rem;\n        \x7d\n        \n        .menu-item ").toList

def pm14 : Str := ("\x7b\n            background: var(--white);\n            border-radius: 12px;\n            padding: 1rem;\n            display: flex;\n            gap: 1rem;\n            box-shadow: 0 2px 10px var(--shadow);\n            transition: transform 0.3s ease, box-shadow 0.3s ease;\n        \x7d\n        \n        .menu-item:hover \x7b\n            transform: translateY(-2px);\n            box-shadow: 0 4px 20px var(--shadow);\n        \x7d\n        \n        .item-image \x7b\n            width: 80px;\n            height: 80px;\n            border-radius: 10px;\n            object-fit: cover;\n            flex-shrink: 0;\n        \x7d\n        \n        .item-placeholder \x7b\n            width: 80px;\n            height: 80px;\n            border-radius: 10px;\n            background: var(--accent);\n            display: flex;\n            align-items: center;\n            justify-content: cen").toList

def pm15 : Str := ("ter;\n            flex-shrink: 0;\n            font-size: 2rem;\n        \x7d\n        \n        .item-content \x7b\n            flex: 1;\n            min-width: 0;\n        \x7d\n        \n        .item-header \x7b\n            display: flex;\n            justify-content: space-between;\n            align-items: flex-start;\n            gap: 0.5rem;\n            margin-bottom: 0.5rem;\n        \x7d\n        \n        .item-name \x7b\n            font-weight: 600;\n            font-size: 1rem;\n            color: var(--text);\n        \x7d\n        \n        .item-badges \x7b\n            display: flex;\n            gap: 0.25rem;\n            flex-wrap: wrap;\n            margin-top: 0.25rem;\n        \x7d\n        \n        .badge \x7b\n            font-size: 0.65rem;\n            padding: 0.2rem 0.5rem;\n            border-radius: 10px;\n            font-weight: 500;\n        \x7d\n        \n        .badge").toList

def pm16 : Str := ("-bestseller \x7b\n            background: #FFD700;\n            color: #333;\n        \x7d\n        \n        .badge-new \x7b\n            background: #4CAF50;\n            color: white;\n        \x7d\n        \n        .badge-vegan \x7b\n            background: #8BC34A;\n            color: white;\n        \x7d\n        \n        .badge-vegetarian \x7b\n            background: #AED581;\n            color: #333;\n        \x7d\n        \n        .badge-spicy \x7b\n            background: #FF5722;\n            color: white;\n        \x7d\n        \n        .badge-gf \x7b\n            background: #FFC107;\n            color: #333;\n        \x7d\n        \n        .item-price \x7b\n            font-weight: 600;\n            color: var(--primary);\n            font-size: 1.1rem;\n            white-space: nowrap;\n        \x7d\n        \n        .original-price \x7b\n            font-size: 0.85rem;\n            color: #999;\n   ").toList

def pm17 : Str := ("         text-decoration: line-through;\n            margin-left: 0.5rem;\n        \x7d\n        \n        .item-description \x7b\n            font-size: 0.85rem;\n            color: #666;\n            line-height: 1.5;\n        \x7d\n        \n        .item-meta \x7b\n            margin-top: 0.5rem;\n            font-size: 0.75rem;\n            color: #888;\n        \x7d\n        \n        /* Footer */\n        .footer \x7b\n            background: var(--secondary);\n            color: var(--white);\n            padding: 2rem 1rem;\n            text-align: center;\n            margin-top: 2rem;\n        \x7d\n        \n        .footer-content \x7b\n            max-width: 600px;\n            margin: 0 auto;\n        \x7d\n        \n        .social-links \x7b\n            display: flex;\n            justify-content: center;\n            gap: 1rem;\n            margin-top: 1rem;\n        \x7d\n        \n     ").toList

def pm18 : Str := ("   .social-link \x7b\n            width: 40px;\n            height: 40px;\n            border-radius: 50%;\n            background: rgba(255,255,255,0.1);\n            display: flex;\n            align-items: center;\n            justify-content: center;\n            transition: background 0.3s ease;\n        \x7d\n        \n        .social-link:hover \x7b\n            background: rgba(255,255,255,0.2);\n        \x7d\n        \n        .social-link svg \x7b\n            width: 20px;\n            height: 20px;\n            fill: var(--white);\n        \x7d\n        \n        .powered-by \x7b\n            margin-top: 1.5rem;\n            font-size: 0.75rem;\n            opacity: 0.7;\n        \x7d\n        \n        /* Empty State */\n        .empty-state \x7b\n            text-align: center;\n            padding: 3rem 1rem;\n            color: #888;\n        \x7d\n        \n        .empty-state svg \x7b\n ").toList

def pm19 : Str := ("           width: 80px;\n            height: 80px;\n            margin-bottom: 1rem;\n            opacity: 0.5;\n        \x7d\n        \n        /* Responsive */\n        @media (min-width: 768px) \x7b\n            .header \x7b\n                padding: 3rem 2rem;\n            \x7d\n            \n            .cafe-name \x7b\n                font-size: 2.5rem;\n            \x7d\n            \n            .menu-item \x7b\n                padding: 1.25rem;\n            \x7d\n            \n            .item-image,\n            .item-placeholder \x7b\n                width: 100px;\n                height: 100px;\n            \x7d\n        \x7d\n        \n        /* Animations */\n        @keyframes fadeInUp \x7b\n            from \x7b\n                opacity: 0;\n                transform: translateY(20px);\n            \x7d\n            to \x7b\n                opacity: 1;\n                transform: translateY(0);\n    ").toList

def pm20 : Str := ("        \x7d\n        \x7d\n        \n        .menu-item \x7b\n            animation: fadeInUp 0.5s ease forwards;\n        \x7d\n        \n        .category-section:nth-child(1) .menu-item \x7b animation-delay: 0.1s; \x7d\n        .category-section:nth-child(2) .menu-item \x7b animation-delay: 0.2s; \x7d\n        .category-section:nth-child(3) .menu-item \x7b animation-delay: 0.3s; \x7d\n    </style>\n</head>\n<body>\n    <!-- Header -->\n    <header class=\"header\">\n        ").toList

def pm21 : Str := ("\n        ").toList

def mH1Open : Str := ("<h1 class=\"cafe-name\">").toList

def mH1Close : Str := ("</h1>").toList

def pm23 : Str := ("\n    </header>\n    \n    <!-- Contact Bar -->\n    ").toList

def pm24 : Str := ("\n    \n    <!-- Categories Navigation -->\n    ").toList

def pm25 : Str := ("\n    \n    <!-- Menu -->\n    <main class=\"menu-container\">\n        ").toList

def pm26 : Str := ("\n    </main>\n    \n    <!-- Footer -->\n    <footer class=\"footer\">\n        <div class=\"footer-content\">\n            <p>").toList

def pm27 : Str := ("</p>\n            ").toList

def pm29 : Str := ("\n            <p class=\"powered-by\">Powered by QR Menu System</p>\n        </div>\n    </footer>\n    \n    ").toList

def mScriptOpen : Str := ("<script>").toList

def pm30 : Str := ("\n        // Category navigation\n        document.querySelectorAll(\x27.category-btn\x27).forEach(btn => \x7b\n            btn.addEventListener(\x27click\x27, () => \x7b\n                // Update active button\n                document.querySelectorAll(\x27.category-btn\x27).forEach(b => b.classList.remove(\x27active\x27));\n                btn.classList.add(\x27active\x27);\n                \n                // Scroll to category\n                const categoryId = btn.dataset.category;\n                const section = document.getElementById(\x27category-\x27 + categoryId);\n                if (section) \x7b\n                    section.scrollIntoView(\x7b behavior: \x27smooth\x27, block: \x27start\x27 \x7d);\n                \x7d\n            \x7d);\n        \x7d);\n        \n        // Highlight category on scroll\n        const observer = new IntersectionObserver((entries) => \x7b\n            entries.forEach(entry => \x7b\n   ").toList

def pm31 : Str := ("             if (entry.isIntersecting) \x7b\n                    const categoryId = entry.target.id.replace(\x27category-\x27, \x27\x27);\n                    document.querySelectorAll(\x27.category-btn\x27).forEach(btn => \x7b\n                        btn.classList.toggle(\x27active\x27, btn.dataset.category === categoryId);\n                    \x7d);\n                \x7d\n            \x7d);\n        \x7d, \x7b threshold: 0.3 \x7d);\n        \n        document.querySelectorAll(\x27.category-section\x27).forEach(section => \x7b\n            observer.observe(section);\n        \x7d);\n    </script>\n</body>\n").toList

def mHtmlEnd : Str := ("</html>").toList

def pim32 : Str := ("<img src=\"").toList

def pim33 : Str := ("\" alt=\"").toList

def pim34 : Str := ("\" class=\"logo\">").toList

def plp35 : Str := ("<div class=\"logo-placeholder\">☕</div>").toList

def ptg36 : Str := ("<p class=\"tagline\">").toList

def ptg37 : Str := ("</p>").toList

def pad38 : Str := ("<p style=\"font-size: 0.9rem; margin-top: 0.5rem; opacity: 0.8;\">").toList

def pnv40 : Str := ("\n    ").toList

def mNavOpen : Str := ("<nav class=\"categories-nav\">").toList

def pnv41 : Str := ("\n        <div class=\"nav-container\">\n            ").toList

def pnv42 : Str := ("\n        </div>\n    </nav>\n    ").toList

def pbt43 : Str := ("\n                <button class=\"category-btn").toList

def pbt44 : Str := ("\"").toList

def mDataCat : Str := (" data-category=\"").toList

def pbt45 : Str := ("\">\n                    ").toList

def pbt46 : Str := (" ").toList

def pbt47 : Str := ("\n                </button>\n            ").toList

def mActive : Str := (" active").toList

def pme48 : Str := ("\n        <div class=\"empty-state\">\n            <svg viewBox=\"0 0 24 24\" fill=\"currentColor\"><path d=\"M12 2C6.48 2 2 6.48 2 12s4.48 10 10 10 10-4.48 10-10S17.52 2 12 2zm-2 15l-5-5 1.41-1.41L10 14.17l7.59-7.59L19 8l-9 9z\"/></svg>\n            <h3>").toList

def mComingSoon : Str := ("Menu Coming Soon").toList

def pme49 : Str := ("</h3>\n            <p>Our delicious menu is being prepared.</p>\n        </div>\n        ").toList

def psc50 : Str := ("\n        <section class=\"category-section\" id=\"category-").toList

def psc51 : Str := ("\">\n            <h2 class=\"category-title\">\n                ").toList

def psc52 : Str := ("\n                ").toList

def psc53 : Str := ("\n            </h2>\n            ").toList

def psc54 : Str := ("\n            <div class=\"menu-items\">\n                ").toList

def psc55 : Str := ("\n            </div>\n        </section>\n        ").toList

def pic56 : Str := ("<span class=\"category-icon\">").toList

def pic57 : Str := ("</span>").toList

def pcd58 : Str := ("<p style=\"color: #666; margin-bottom: 1rem; font-size: 0.9rem;\">").toList

def pni60 : Str := ("\n                <div class=\"empty-state\">\n                    <p>").toList

def mNoItems : Str := ("No items in this category yet.").toList

def pni61 : Str := ("</p>\n                </div>\n                ").toList

def pph62 : Str := ("\n                <a href=\"tel:").toList

def pph63 : Str := ("\" class=\"contact-item\">\n                    <svg viewBox=\"0 0 24 24\"><path d=\"M6.62 10.79c1.44 2.83 3.76 5.14 6.59 6.59l2.2-2.2c.27-.27.67-.36 1.02-.24 1.12.37 2.33.57 3.57.57.55 0 1 .45 1 1V20c0 .55-.45 1-1 1-9.39 0-17-7.61-17-17 0-.55.45-1 1-1h3.5c.55 0 1 .45 1 1 0 1.25.2 2.45.57 3.57.11.35.03.74-.25 1.02l-2.2 2.2z\"/></svg>\n                    ").toList

def pph64 : Str := ("\n                </a>\n            ").toList

def pem65 : Str := ("\n                <a href=\"mailto:").toList

def pem66 : Str := ("\" class=\"contact-item\">\n                    <svg viewBox=\"0 0 24 24\"><path d=\"M20 4H4c-1.1 0-1.99.9-1.99 2L2 18c0 1.1.9 2 2 2h16c1.1 0 2-.9 2-2V6c0-1.1-.9-2-2-2zm0 4l-8 5-8-5V6l8 5 8-5v2z\"/></svg>\n                    Email Us\n                </a>\n            ").toList

def pwb67 : Str := ("\n                <a href=\"").toList

def pwb68 : Str := ("\" target=\"_blank\" class=\"contact-item\">\n                    <svg viewBox=\"0 0 24 24\"><path d=\"M11.99 2C6.47 2 2 6.48 2 12s4.47 10 9.99 10C17.52 22 22 17.52 22 12S17.52 2 11.99 2zm6.93 6h-2.95c-.32-1.25-.78-2.45-1.38-3.56 1.84.63 3.37 1.91 4.33 3.56zM12 4.04c.83 1.2 1.48 2.53 1.91 3.96h-3.82c.43-1.43 1.08-2.76 1.91-3.96zM4.26 14C4.1 13.36 4 12.69 4 12s.1-1.36.26-2h3.38c-.08.66-.14 1.32-.14 2 0 .68.06 1.34.14 2H4.26zm.82 2h2.95c.32 1.25.78 2.45 1.38 3.56-1.84-.63-3.37-1.9-4.33-3.56zm2.95-8H5.08c.96-1.66 2.49-2.93 4.33-3.56C8.81 5.55 8.35 6.75 8.03 8zM12 19.96c-.83-1.2-1.48-2.53-1.91-3.96h3.82c-.43 1.43-1.08 2.76-1.91 3.96zM14.34 14H9.66c-.09-.66-.16-1.32-.16-2 0-.68.07-1.35.16-2h4.68c.09.65.16 1.32.16 2 0 .68-.07 1.34-.16 2zm.25 5.56c.6-1.11 1.06-2.31 1.38-3.56h2.95c-.96 1.65-2.49 2.93-4.33 3.56zM16.36 14c.08-.66.14-1.32.14-2 0-.68-.06-1.34").toList

def pwb69 : Str := ("-.14-2h3.38c.16.64.26 1.31.26 2s-.1 1.36-.26 2h-3.38z\"/></svg>\n                    Website\n                </a>\n            ").toList

def pcw70 : Str := ("\n            <div class=\"contact-bar\">\n                ").toList

def pcw71 : Str := ("\n            </div>\n        ").toList

def pig72 : Str := ("\n                <a href=\"https://instagram.com/").toList

def pig73 : Str := ("\" target=\"_blank\" class=\"social-link\" title=\"Instagram\">\n                    <svg viewBox=\"0 0 24 24\"><path d=\"M12 2.163c3.204 0 3.584.012 4.85.07 3.252.148 4.771 1.691 4.919 4.919.058 1.265.069 1.645.069 4.849 0 3.205-.012 3.584-.069 4.849-.149 3.225-1.664 4.771-4.919 4.919-1.266.058-1.644.07-4.85.07-3.204 0-3.584-.012-4.849-.07-3.26-.149-4.771-1.699-4.919-4.92-.058-1.265-.07-1.644-.07-4.849 0-3.204.013-3.583.07-4.849.149-3.227 1.664-4.771 4.919-4.919 1.266-.057 1.645-.069 4.849-.069zm0-2.163c-3.259 0-3.667.014-4.947.072-4.358.2-6.78 2.618-6.98 6.98-.059 1.281-.073 1.689-.073 4.948 0 3.259.014 3.668.072 4.948.2 4.358 2.618 6.78 6.98 6.98 1.281.058 1.689.072 4.948.072 3.259 0 3.668-.014 4.948-.072 4.354-.2 6.782-2.618 6.979-6.98.059-1.28.073-1.689.073-4.948 0-3.259-.014-3.667-.072-4.947-.196-4.354-2.617-6.78-6.979-6.98-1.281-.059-1.69-.07").toList

def pig74 : Str := ("3-4.949-.073zm0 5.838c-3.403 0-6.162 2.759-6.162 6.162s2.759 6.163 6.162 6.163 6.162-2.759 6.162-6.163c0-3.403-2.759-6.162-6.162-6.162zm0 10.162c-2.209 0-4-1.79-4-4 0-2.209 1.791-4 4-4s4 1.791 4 4c0 2.21-1.791 4-4 4zm6.406-11.845c-.796 0-1.441.645-1.441 1.44s.645 1.44 1.441 1.44c.795 0 1.439-.645 1.439-1.44s-.644-1.44-1.439-1.44z\"/></svg>\n                </a>\n            ").toList

def pfb75 : Str := ("\n                <a href=\"https://facebook.com/").toList

def pfb76 : Str := ("\" target=\"_blank\" class=\"social-link\" title=\"Facebook\">\n                    <svg viewBox=\"0 0 24 24\"><path d=\"M24 12.073c0-6.627-5.373-12-12-12s-12 5.373-12 12c0 5.99 4.388 10.954 10.125 11.854v-8.385H7.078v-3.47h3.047V9.43c0-3.007 1.792-4.669 4.533-4.669 1.312 0 2.686.235 2.686.235v2.953H15.83c-1.491 0-1.956.925-1.956 1.874v2.25h3.328l-.532 3.47h-2.796v8.385C19.612 23.027 24 18.062 24 12.073z\"/></svg>\n                </a>\n            ").toList

def psw77 : Str := ("\n            <div class=\"social-links\">\n                ").toList

def pit79 : Str := ("\n            <div class=\"menu-item\">\n                ").toList

def pit80 : Str := ("\n                <div class=\"item-content\">\n                    <div class=\"item-header\">\n                        <div>\n                            <div class=\"item-name\">").toList

def pit81 : Str := ("</div>\n                            ").toList

def pit82 : Str := ("\n                        </div>\n                        <div class=\"item-price\">\n                            ").toList

def pit83 : Str := ("\n                            ").toList

def pit84 : Str := ("\n                        </div>\n                    </div>\n                    ").toList

def pit85 : Str := ("\n                    ").toList

def pit86 : Str := ("\n                </div>\n            </div>\n        ").toList

def pii89 : Str := ("\" class=\"item-image\">").toList

def pip90 : Str := ("<div class=\"item-placeholder\">🍽️</div>").toList

def mBadgesOpen : Str := ("<div class=\"item-badges\">").toList

def mDivClose : Str := ("</div>").toList

def mOrigOpen : Str := ("<span class=\"original-price\">").toList

def pid91 : Str := ("<p class=\"item-description\">").toList

def pcl93 : Str := ("<p class=\"item-meta\">").toList

def pcl94 : Str := (" cal</p>").toList

def bBestseller : Str := ("<span class=\"badge badge-bestseller\">⭐ Bestseller</span>").toList

def bNew : Str := ("<span class=\"badge badge-new\">🆕 New</span>").toList

def bVegan : Str := ("<span class=\"badge badge-vegan\">🌱 Vegan</span>").toList

def bVegetarian : Str := ("<span class=\"badge badge-vegetarian\">🥬 Vegetarian</span>").toList

def bSpicy : Str := ("<span class=\"badge badge-spicy\">🌶️ Spicy</span>").toList

def bGf : Str := ("<span class=\"badge badge-gf\">GF</span>").toList

def dfltTagline : Str := ("View our delicious menu").toList

def dfltPrimary : Str := ("#D4A574").toList

def dfltSecondary : Str := ("#8B7355").toList

def dfltAccent : Str := ("#F5E6D3").toList

def dfltBackground : Str := ("#FAF7F2").toList

def dfltText : Str := ("#4A4A4A").toList

def dfltCurrency : Str := ("₹").toList

/-- The badge markup list of `generateItemHTML`: conditional pushes in the
fixed source order bestseller, new, vegan, vegetarian, spicy, gluten-free. -/
def itemBadges (item : Item) : List Str :=
  (if item.is_bestseller then [bBestseller] else []) ++
  (if item.is_new then [bNew] else []) ++
  (if item.is_vegan then [bVegan] else []) ++
  (if item.is_vegetarian then [bVegetarian] else []) ++
  (if item.is_spicy then [bSpicy] else []) ++
  (if item.is_gluten_free then [bGf] else [])

/-- `MenuGenerator.generateItemHTML(item, currency)`. -/
def generateItemHTML (item : Item) (currency : Str) : Str :=
  pit79 ++
  (if truthy item.image
    then pim32 ++ rawStr item.image ++ pim33 ++ escapeHtmlOpt item.name ++ pii89
    else pip90) ++
  pit80 ++ escapeHtmlOpt item.name ++ pit81 ++
  (if 0 < (itemBadges item).length
    then mBadgesOpen ++ (itemBadges item).flatten ++ mDivClose
    else []) ++
  pit82 ++ currency ++ jsPriceStr item.price ++ pit83 ++
  (if truthyRat item.original_price
    then mOrigOpen ++ currency ++ jsPriceStr item.original_price ++ pic57
    else []) ++
  pit84 ++
  (if truthy item.description
    then pid91 ++ escapeHtmlOpt item.description ++ ptg37
    else []) ++
  pit85 ++
  (if truthyNat item.calories then pcl93 ++ natStrOpt item.calories ++ pcl94 else []) ++
  pit86

/-- `cat.items.map(item => generateItemHTML(item, currency)).join('')`. -/
def itemsHtml (currency : Str) : List Item → Str
  | [] => []
  | it :: its => generateItemHTML it currency ++ itemsHtml currency its

/-- One category section of the menu body. -/
def sectionHtml (currency : Str) (cat : Category) : Str :=
  psc50 ++ cat.id ++ psc51 ++
  (if truthy cat.icon then pic56 ++ rawStr cat.icon ++ pic57 else []) ++
  psc52 ++ escapeHtmlOpt cat.name ++ psc53 ++
  (if truthy cat.description then pcd58 ++ escapeHtmlOpt cat.description ++ ptg37 else []) ++
  psc54 ++
  (if truthyItems cat.items
    then itemsHtml currency (cat.items.getD [])
    else pni60 ++ mNoItems ++ pni61) ++
  psc55

/-- `categories.map(cat => `…section…`).join('')`. -/
def sectionsHtml (currency : Str) : List Category → Str
  | [] => []
  | c :: cs => sectionHtml currency c ++ sectionsHtml currency cs

/-- `categories.map((cat, idx) => `…button…`).join('')`: one navigation
button per category, the one at index 0 additionally marked ` active`. -/
def navButtonsAux (idx : Nat) : List Category → Str
  | [] => []
  | cat :: cs =>
    pbt43 ++ (if idx = 0 then mActive else []) ++ pbt44 ++ mDataCat ++ cat.id ++
      pbt45 ++ jsOr cat.icon [] ++ pbt46 ++ escapeHtmlOpt cat.name ++ pbt47 ++
      navButtonsAux (idx + 1) cs

/-- The category-navigation area: the `<nav>` wrapper when there is at least
one category, `''` otherwise. -/
def navArea (cats : List Category) : Str :=
  if 0 < cats.length then pnv40 ++ mNavOpen ++ pnv41 ++ navButtonsAux 0 cats ++ pnv42
  else []

/-- The menu body: one section per category, or the document-level
"coming soon" empty state when there are no categories. -/
def menuArea (currency : Str) (cats : List Category) : Str :=
  if 0 < cats.length then sectionsHtml currency cats
  else pme48 ++ mComingSoon ++ pme49

/-- The `contacts` array built by `generateContactBar`. -/
def contactsList (c : Cafe) : List Str :=
  (if truthy c.phone
    then [pph62 ++ rawStr c.phone ++ pph63 ++ escapeHtmlOpt c.phone ++ pph64] else []) ++
  (if truthy c.email then [pem65 ++ rawStr c.email ++ pem66] else []) ++
  (if truthy c.website then [pwb67 ++ rawStr c.website ++ pwb68 ++ pwb69] else [])

/-- `MenuGenerator.generateContactBar(cafe)`: conditional phone / email /
website entries, wrapped when at least one is present, `''` otherwise. -/
def generateContactBar (c : Cafe) : Str :=
  if (contactsList c).length = 0 then []
  else pcw70 ++ (contactsList c).flatten ++ pcw71

/-- The `links` array built by `generateSocialLinks`. -/
def socialList (c : Cafe) : List Str :=
  (if truthy c.instagram then [pig72 ++ rawStr c.instagram ++ pig73 ++ pig74] else []) ++
  (if truthy c.facebook then [pfb75 ++ rawStr c.facebook ++ pfb76] else [])

/-- `MenuGenerator.generateSocialLinks(cafe)`. -/
def generateSocialLinks (c : Cafe) : Str :=
  if (socialList c).length = 0 then []
  else psw77 ++ (socialList c).flatten ++ pcw71

/-- The theme colours (`cafe.<field> || '<default>'`). -/
def themePrimary (c : Cafe) : Str := jsOr c.primary_color dfltPrimary

/-- Secondary theme colour. -/
def themeSecondary (c : Cafe) : Str := jsOr c.secondary_color dfltSecondary

/-- Accent theme colour. -/
def themeAccent (c : Cafe) : Str := jsOr c.accent_color dfltAccent

/-- Background theme colour. -/
def themeBackground (c : Cafe) : Str := jsOr c.background_color dfltBackground

/-- Text theme colour. -/
def themeText (c : Cafe) : Str := jsOr c.text_color dfltText

/-- The `currency` binding of `generateMenuHTML`: `cafe.currency || '₹'`. -/
def cafeCurrency (c : Cafe) : Str := jsOr c.currency dfltCurrency

/-- `MenuGenerator.generateMenuHTML(cafe, categories)`: the complete document,
assembled exactly as the source template (the named pieces concatenate, in
order, to the source template text). -/
def generateMenuHTML (c : Cafe) (categories : List Category) : Str :=
  pm1 ++ escapeHtmlOpt c.name ++ pm2 ++ escapeHtml (jsOr c.tagline dfltTagline) ++ pm3 ++
  mVarPrim ++ themePrimary c ++ mSemi ++ pm4 ++
  mVarSec ++ themeSecondary c ++ mSemi ++ pm4 ++
  mVarAcc ++ themeAccent c ++ mSemi ++ pm4 ++
  mVarBg ++ themeBackground c ++ mSemi ++ pm4 ++
  mVarTxt ++ themeText c ++ mSemi ++
  pm8 ++ pm9 ++ pm10 ++ pm11 ++ pm12 ++ pm13 ++ pm14 ++ pm15 ++ pm16 ++ pm17 ++
  pm18 ++ pm19 ++ pm20 ++
  (if truthy c.logo
    then pim32 ++ rawStr c.logo ++ pim33 ++ escapeHtmlOpt c.name ++ pim34
    else plp35) ++
  pm21 ++ mH1Open ++ escapeHtmlOpt c.name ++ mH1Close ++ pm21 ++
  (if truthy c.tagline then ptg36 ++ escapeHtmlOpt c.tagline ++ ptg37 else []) ++
  pm23 ++ generateContactBar c ++ pm24 ++ navArea categories ++ pm25 ++
  menuArea (cafeCurrency c) categories ++ pm26 ++ escapeHtmlOpt c.name ++ pm27 ++
  (if truthy c.address then pad38 ++ escapeHtmlOpt c.address ++ ptg37 else []) ++
  pm4 ++ generateSocialLinks c ++ pm29 ++ mScriptOpen ++ pm30 ++ pm31 ++ mHtmlEnd

/-- The JavaScript expression `this.escapeHtml(x)` inside the class body of
`MenuGenerator`: a class body is strict-mode code, so when the method is
invoked unbound, `this` is `undefined` and the property access throws a
TypeError; when `this` is the instance, the call is `escapeHtml`. -/
def thisEscapeHtml (self : Option Unit) (s : Option Str) : Except Str Str :=
  match self with
  | none =>
      .error (("TypeError: Cannot read properties of undefined (reading \x27escapeHtml\x27)").toList)
  | some _ => .ok (escapeHtmlOpt s)

/-- The method `generateMenuHTML` invoked with an explicit `this` binding. Template
substitutions evaluate left to right and the first substitution of the
method's template is `this.escapeHtml(cafe.name)` in the `<title>` element,
so an unbound call (`self = none`) throws there before any part of the
document exists, while a bound call returns the document of
`generateMenuHTML`. -/
def generateMenuHTMLCall (self : Option Unit) (c : Cafe)
    (categories : List Category) : Except Str Str :=
  (thisEscapeHtml self c.name).map fun _ => generateMenuHTML c categories

/-- Outcome of the deploy route `POST /:cafeId/generate` once the café row
exists: either the generated document (which the route then writes to disk)
or the `catch` block's 500 response. -/
inductive DeployResult where
  | generated (html : Str)
  | failed (status : Nat) (error : Str)

/-- The deploy route's generate handler after loading the rows: it calls
`generateMenuHTML(cafe, categories, items)` with the method destructured
from the exported instance (`const \x7b generateMenuHTML \x7d = require(...)`
against `module.exports = new MenuGenerator()`), so the call is unbound and
`this` is `undefined`; the ungrouped `items` argument would in any case be
ignored as an extra argument (JavaScript call semantics), and `categories`
are the raw table rows carrying no `items` field. A thrown error is caught
and answered with status 500 and a fixed error body. -/
def deployGenerate (c : Cafe) (categories : List Category)
    (_items : List Item) : DeployResult :=
  match generateMenuHTMLCall none c categories with
  | .ok html => .generated html
  | .error _ => .failed 500 (("Failed to generate deployment files").toList)

/-- The pattern `<script>`. -/
def scriptTag : Str := ("<script>").toList

/-- The escaped form `&lt;script&gt;` of `<script>`. -/
def escScriptTag : Str := ("&lt;script&gt;").toList

/-- The opening of a `nav` element. -/
def navTag : Str := ("<nav").toList

/-- The pattern `p` does not occur in `a` and cannot start an occurrence
straddling `a`'s right border: the bundle of facts needed to walk a
concatenation left to right. -/
def PF (p a : Str) : Prop := countOcc p a = 0 ∧ dangerFree p a

/-- The fields of a café that the renderer interpolates into the document
without escaping (URL/attribute positions and the raw currency and colour
values) contain no `<`. -/
abbrev CleanCafe (c : Cafe) : Prop :=
  '<' ∉ rawStr c.logo ∧ '<' ∉ rawStr c.phone ∧ '<' ∉ rawStr c.email ∧
  '<' ∉ rawStr c.website ∧ '<' ∉ rawStr c.instagram ∧ '<' ∉ rawStr c.facebook ∧
  '<' ∉ rawStr c.currency ∧ '<' ∉ rawStr c.primary_color ∧
  '<' ∉ rawStr c.secondary_color ∧ '<' ∉ rawStr c.accent_color ∧
  '<' ∉ rawStr c.background_color ∧ '<' ∉ rawStr c.text_color

/-- The raw-interpolated fields of an item (the image URL) contain no `<`. -/
abbrev CleanItem (it : Item) : Prop := '<' ∉ rawStr it.image

/-- The raw-interpolated fields of a category (id digits, icon, its items'
raw fields) contain no `<`. -/
abbrev CleanCat (cat : Category) : Prop :=
  '<' ∉ cat.id ∧ '<' ∉ rawStr cat.icon ∧ ∀ it ∈ cat.items.getD [], CleanItem it

/-- All categories passed to the renderer are clean. -/
abbrev CleanCats (cats : List Category) : Prop := ∀ cat ∈ cats, CleanCat cat

/-! ### Model of the public menu route (`routes/public.js`, `GET /menu/:slug`) -/

/-- The café columns selected by the public menu route; `is_published` is the
SQLite integer flag (0 = unpublished). -/
structure PubCafeRow where
  id : Nat
  name : Option Str
  slug : Option Str
  tagline : Option Str
  description : Option Str
  logo : Option Str
  cover_image : Option Str
  phone : Option Str
  email : Option Str
  address : Option Str
  website : Option Str
  instagram : Option Str
  facebook : Option Str
  currency : Option Str
  primary_color : Option Str
  secondary_color : Option Str
  accent_color : Option Str
  background_color : Option Str
  text_color : Option Str
  is_published : Nat

/-- A category row selected by the public menu route. -/
structure PubCatRow where
  id : Nat
  name : Option Str
  icon : Option Str
  description : Option Str

/-- An item row selected by the public menu route. -/
structure PubItemRow where
  id : Nat
  category_id : Nat
  name : Option Str
  description : Option Str
  price : Option Rat
  original_price : Option Rat
  image : Option Str
  calories : Option Nat
  is_vegan : Bool
  is_vegetarian : Bool
  is_gluten_free : Bool
  is_spicy : Bool
  is_bestseller : Bool
  is_new : Bool

/-- The reshaped café object of the route's JSON success body (note:
`id`, `slug` and `is_published` are not included). -/
structure PubCafeJson where
  name : Option Str
  tagline : Option Str
  description : Option Str
  logo : Option Str
  coverImage : Option Str
  phone : Option Str
  email : Option Str
  address : Option Str
  website : Option Str
  instagram : Option Str
  facebook : Option Str
  currency : Option Str
  primaryColor : Option Str
  secondaryColor : Option Str
  accentColor : Option Str
  backgroundColor : Option Str
  textColor : Option Str

/-- A category together with its grouped items, as in the success body. -/
structure PubCatWithItems where
  cat : PubCatRow
  items : List PubItemRow

/-- The route's response: a 404 error body, or the JSON menu payload. -/
inductive PubResponse where
  | notFound (error : Str)
  | ok (cafe : PubCafeJson) (categories : List PubCatWithItems)

/-- HTTP status of a `PubResponse`. -/
def PubResponse.status : PubResponse → Nat
  | .notFound _ => 404
  | .ok _ _ => 200

/-- `GET /menu/:slug`: `cafeRow` is the result of the café lookup by slug,
`cats`/`items` the rows the two later queries would return, `preview` the
`preview` query parameter.  The route 404s when no café matches, 404s when
the café is unpublished and `preview` is not exactly the string `'true'`,
and otherwise returns the reshaped café and the categories with their items
grouped by `category_id`. -/
def getMenuBySlug (cafeRow : Option PubCafeRow) (cats : List PubCatRow)
    (items : List PubItemRow) (preview : Option Str) : PubResponse :=
  match cafeRow with
  | none => .notFound (("Menu not found").toList)
  | some cafe =>
    if cafe.is_published = 0 ∧ preview ≠ some (("true").toList) then
      .notFound (("Menu not found or not published yet").toList)
    else
      .ok
        { name := cafe.name, tagline := cafe.tagline,
          description := cafe.description, logo := cafe.logo,
          coverImage := cafe.cover_image, phone := cafe.phone,
          email := cafe.email, address := cafe.address,
          website := cafe.website, instagram := cafe.instagram,
          facebook := cafe.facebook, currency := cafe.currency,
          primaryColor := cafe.primary_color,
          secondaryColor := cafe.secondary_color,
          accentColor := cafe.accent_color,
          backgroundColor := cafe.background_color,
          textColor := cafe.text_color }
        (cats.map fun c =>
          ⟨c, items.filter fun i => i.category_id = c.id⟩)

-- Concrete inputs for witnesses and counterexamples.

/-- A café record with every column NULL/absent. -/
def cafeBlank : Cafe :=
  ⟨none, none, none, none, none, none, none, none, none, none, none, none,
   none, none, none, none, none⟩

/-- A café name containing `<script>`. -/
def nmC1 : Str := ("Cafe A<script>B").toList

/-- A logo URL field holding `<script>`. -/
def lgC1 : Str := ("<script>").toList

/-- Counterexample café: name contains `<script>`, and the logo field — which
the renderer interpolates unescaped into the `src` attribute — is `<script>`. -/
def cafeC1x : Cafe := { cafeBlank with name := some nmC1, logo := some lgC1 }

/-- Witness café: name contains `<script>`, all raw fields clean. -/
def cafeC1w : Cafe := { cafeBlank with name := some nmC1 }

/-- A plain item: only a name, every other column NULL / 0. -/
def itemPlain : Item :=
  ⟨some (("Latte").toList), none, none, none, none, none,
   false, false, false, false, false, false⟩

/-- An item whose price column is NULL (the schema allows it: `price REAL`). -/
def itemNoPrice : Item := itemPlain

/-- An item with price 3.5 and original price 5. -/
def itemW2 : Item :=
  { itemPlain with price := some ((7 : Rat) / 2), original_price := some 5 }

/-- An item flagged bestseller, new and vegan. -/
def itemBadged : Item :=
  { itemPlain with is_bestseller := true, is_new := true, is_vegan := true }

/-- A category whose `items` field is present but empty. -/
def catEmptyItemsW : Category :=
  ⟨("3").toList, some (("Drinks").toList), none, none, some []⟩

/-- A category row without any `items` field (as selected by the deploy
route straight from the categories table). -/
def catNoItemsW : Category :=
  ⟨("4").toList, some (("Food").toList), none, none, none⟩

/-- A stored but unpublished café row, as the public route would find it. -/
def pubCafeUnpub : PubCafeRow :=
  ⟨1, some (("Hidden Cafe").toList), some (("hidden-cafe").toList), none, none,
   none, none, none, none, none, none, none, none, none, none, none, none,
   none, none, 0⟩

-- Concrete inputs for witnesses and counterexamples are inserted here later.
-- MARKER_CONCRETE_INPUTS

/-! ## Machinery: the escaping transform -/

theorem replaceAllChar_append (c : Char) (r a b : Str) :
    replaceAllChar c r (a ++ b) = replaceAllChar c r a ++ replaceAllChar c r b := by
  induction a with
  | nil => rfl
  | cons x xs ih => simp [replaceAllChar, ih]

theorem escapeStr_append (a b : Str) :
    escapeStr (a ++ b) = escapeStr a ++ escapeStr b := by
  induction a with
  | nil => rfl
  | cons x xs ih => simp [escapeStr, ih]

theorem escapeHtml_cons (x : Char) (s : Str) :
    escapeHtml (x :: s) = escChar x ++ escapeHtml s := by
  by_cases h0 : s.isEmpty
  · have hs : s = [] := List.isEmpty_iff.mp h0
    subst hs
    by_cases h1 : x = '&'
    · subst h1; rfl
    by_cases h2 : x = '<'
    · subst h2; rfl
    by_cases h3 : x = '>'
    · subst h3; rfl
    by_cases h4 : x = '"'
    · subst h4; rfl
    by_cases h5 : x = '\x27'
    · subst h5; rfl
    simp [escapeHtml, replaceAllChar, escChar, h1, h2, h3, h4, h5]
  · have hs : ¬ (x :: s).isEmpty := by simp
    rw [escapeHtml, if_neg (by simp), escapeHtml, if_neg h0]
    by_cases h1 : x = '&'
    · subst h1
      simp [replaceAllChar, replaceAllChar_append, escChar]
    by_cases h2 : x = '<'
    · subst h2
      simp [replaceAllChar, replaceAllChar_append, escChar, h1]
    by_cases h3 : x = '>'
    · subst h3
      simp [replaceAllChar, replaceAllChar_append, escChar, h1, h2]
    by_cases h4 : x = '"'
    · subst h4
      simp [replaceAllChar, replaceAllChar_append, escChar, h1, h2, h3]
    by_cases h5 : x = '\x27'
    · subst h5
      simp [replaceAllChar, replaceAllChar_append, escChar, h1, h2, h3, h4]
    simp [replaceAllChar, replaceAllChar_append, escChar, h1, h2, h3, h4, h5]

theorem escapeHtml_eq_escapeStr (s : Str) : escapeHtml s = escapeStr s := by
  induction s with
  | nil => rfl
  | cons x xs ih => rw [escapeHtml_cons, escapeStr, ih]

theorem escapeHtml_append (a b : Str) :
    escapeHtml (a ++ b) = escapeHtml a ++ escapeHtml b := by
  simp [escapeHtml_eq_escapeStr, escapeStr_append]

theorem lt_not_mem_escChar (x : Char) : '<' ∉ escChar x := by
  unfold escChar
  split_ifs with h1 h2 h3 h4 h5 <;>
    first
    | decide
    | (simp_all; exact fun he => h2 he.symm)

theorem lt_not_mem_escapeHtml (s : Str) : '<' ∉ escapeHtml s := by
  rw [escapeHtml_eq_escapeStr]
  induction s with
  | nil => simp [escapeStr]
  | cons x xs ih =>
    simp only [escapeStr, List.mem_append]
    rintro (h | h)
    · exact lt_not_mem_escChar x h
    · exact ih h

theorem escapeHtml_sub {p s : Str} (h : p <:+: s) :
    escapeHtml p <:+: escapeHtml s := by
  obtain ⟨a, b, rfl⟩ := h
  rw [escapeHtml_append, escapeHtml_append]
  exact List.infix_append _ _ _

/-! ## Machinery: counting pattern occurrences -/

theorem countOcc_nil (p : Str) : countOcc p [] = 0 := rfl

theorem countOcc_cons (p : Str) (x : Char) (xs : Str) :
    countOcc p (x :: xs) = (if p <+: (x :: xs) then 1 else 0) + countOcc p xs := by
  rw [countOcc]
  congr 1
  simp [ List.isPrefixOf_iff_prefix]

theorem dangerFree_nil (p : Str) : dangerFree p [] := by
  intro s hs hne _
  simp_all [List.suffix_nil]

theorem dangerFree_tail {p : Str} {x : Char} {xs : Str}
    (h : dangerFree p (x :: xs)) : dangerFree p xs :=
  fun s hs => h s (hs.trans (List.suffix_cons x xs))

theorem countOcc_append (p a b : Str) (h : dangerFree p a) :
    countOcc p (a ++ b) = countOcc p a + countOcc p b := by
  induction a with
  | nil => simp [countOcc]
  | cons x xs ih =>
    rw [List.cons_append, countOcc_cons, countOcc_cons, ih (dangerFree_tail h),
      Nat.add_assoc]
    congr 2
    have hiff : (p <+: x :: (xs ++ b)) ↔ (p <+: x :: xs) := by
      constructor
      · intro hp
        rw [List.prefix_iff_eq_take] at hp
        have hp' : p = ((x :: xs) ++ b).take p.length := by simpa using hp
        by_cases hl : p.length ≤ (x :: xs).length
        · rw [List.prefix_iff_eq_take]
          conv_lhs => rw [hp']
          rw [List.take_append_of_le_length hl]
        · exfalso
          apply h (x :: xs) (List.suffix_refl _) (by simp) (by omega)
          rw [List.prefix_iff_eq_take]
          calc x :: xs
              = ((x :: xs) ++ b).take (x :: xs).length := (List.take_left _ _).symm
            _ = (((x :: xs) ++ b).take p.length).take (x :: xs).length := by
                rw [List.take_take, Nat.min_eq_left (by omega)]
            _ = p.take (x :: xs).length := by rw [← hp']
      · intro hp
        have : (p : Str) <+: (x :: xs) ++ b := hp.trans (List.prefix_append _ _)
        simpa using this
    rw [hiff]

theorem countOcc_flatten (p : Str) (fs : List Str)
    (h : ∀ f ∈ fs, dangerFree p f) :
    countOcc p fs.flatten = (fs.map (countOcc p)).sum := by
  induction fs with
  | nil => rfl
  | cons f fs ih =>
    rw [List.flatten_cons, countOcc_append p f _ (h f (by simp)), List.map_cons,
      List.sum_cons, ih (fun g hg => h g (by simp [hg]))]

theorem dangerFree_head {p a : Str} (c : Char) (hp : p.head? = some c)
    (hc : c ∉ a) : dangerFree p a := by
  intro s hs hne hlen hpre
  obtain ⟨t, ht⟩ := hpre
  cases s with
  | nil => exact hne rfl
  | cons y ys =>
    have hy : y = c := by
      rw [← ht] at hp
      simpa using hp
    exact hc (hy ▸ hs.subset (by simp))

theorem countOcc_zero_head {p a : Str} (c : Char) (hp : p.head? = some c)
    (hc : c ∉ a) : countOcc p a = 0 := by
  induction a with
  | nil => rfl
  | cons x xs ih =>
    rw [countOcc_cons, ih (fun hx => hc (by simp [hx]))]
    have : ¬ (p <+: x :: xs) := by
      intro hpre
      obtain ⟨t, ht⟩ := hpre
      cases p with
      | nil => simp at hp
      | cons q qs =>
        have hq : q = c := by simpa using hp
        have hx : q = x := by
          have := congrArg List.head? ht
          simpa using this
        exact hc (by simp [← hx, hq])
    rw [if_neg this]

theorem dangerFree_check (p a : Str)
    (h : ∀ k, k < p.length → 0 < k → ¬ (List.drop (a.length - k) a) <+: p) :
    dangerFree p a := by
  intro s hs hne hlen hpre
  have hsl : s = a.drop (a.length - s.length) := List.suffix_iff_eq_drop.mp hs
  exact h s.length hlen (List.length_pos.mpr hne) (hsl ▸ hpre)

theorem dangerFree_suffix {p d a : Str} (hd : d <:+ a)
    (hlen : p.length ≤ d.length + 1) (h : dangerFree p d) : dangerFree p a := by
  intro s hs hne hslen
  apply h s ?_ hne hslen
  have hsd : s.length ≤ d.length := by omega
  rcases List.suffix_or_suffix_of_suffix hs hd with h' | h'
  · exact h'
  · have : d = s := h'.eq_of_length (by have := h'.length_le; omega)
    rw [← this]

theorem dangerFree_append_right (p : Str) (a : Str) {b : Str}
    (h : dangerFree p b) (hlen : p.length ≤ b.length + 1) :
    dangerFree p (a ++ b) :=
  dangerFree_suffix (List.suffix_append a b) hlen h

theorem czap {p a : Str} (b : Str) (ha : dangerFree p a)
    (h0 : countOcc p a = 0) : countOcc p (a ++ b) = countOcc p b := by
  rw [countOcc_append p a b ha, h0, Nat.zero_add]

theorem countOcc_pos_iff {p : Str} (s : Str) (hp : p ≠ []) :
    0 < countOcc p s ↔ p <:+: s := by
  induction s with
  | nil =>
    simp [countOcc, List.infix_nil, hp]
  | cons x xs ih =>
    rw [countOcc_cons, List.infix_cons_iff, ← ih]
    by_cases hpre : p <+: x :: xs
    · simp [hpre]
    · simp [hpre]

theorem dangerFree_append {p a b : Str} (ha : dangerFree p a)
    (hb : dangerFree p b) : dangerFree p (a ++ b) := by
  intro s hs hne hlen hpre
  rcases List.suffix_or_suffix_of_suffix hs (List.suffix_append a b) with h' | h'
  · exact hb s h' hne hlen hpre
  · obtain ⟨u, hu⟩ := h'
    by_cases hun : u = []
    · subst hun
      simp only [List.nil_append] at hu
      exact hb s (hu ▸ List.suffix_refl b) hne hlen hpre
    · have hua : u <:+ a := by
        obtain ⟨t, ht⟩ := hs
        rw [← hu, ← List.append_assoc] at ht
        exact ⟨t, List.append_cancel_right ht⟩
      have hlu : s.length = u.length + b.length := by
        rw [← hu, List.length_append]
      have hup : u <+: p := List.IsPrefix.trans ⟨b, hu⟩ hpre
      exact ha u hua hun (by omega) hup

theorem count0_append {p a b : Str} (dfa : dangerFree p a)
    (ha : countOcc p a = 0) (hb : countOcc p b = 0) :
    countOcc p (a ++ b) = 0 := by
  rw [countOcc_append p a b dfa, ha, hb]

theorem PF_append {p a b : Str} (ha : PF p a) (hb : PF p b) : PF p (a ++ b) :=
  ⟨count0_append ha.2 ha.1 hb.1, dangerFree_append ha.2 hb.2⟩

theorem PF_nil (p : Str) : PF p [] := ⟨rfl, dangerFree_nil p⟩

theorem PF_ite {p a b : Str} {c : Prop} [Decidable c] (ha : PF p a)
    (hb : PF p b) : PF p (if c then a else b) := by
  split <;> assumption

theorem PF_not_mem {p a : Str} (c : Char) (hp : p.head? = some c)
    (hc : c ∉ a) : PF p a :=
  ⟨countOcc_zero_head c hp hc, dangerFree_head c hp hc⟩

theorem scTag_head : scriptTag.head? = some '<' := by decide

theorem nvTag_head : navTag.head? = some '<' := by decide

theorem PF_sc_of_clean {a : Str} (h : '<' ∉ a) : PF scriptTag a :=
  PF_not_mem '<' scTag_head h

theorem PF_nv_of_clean {a : Str} (h : '<' ∉ a) : PF navTag a :=
  PF_not_mem '<' nvTag_head h

theorem lt_not_mem_rawStr_of (v : Option Str) (h : '<' ∉ rawStr v) :
    '<' ∉ rawStr v := h

theorem lt_not_mem_jsOr {v : Option Str} {d : Str} (hv : '<' ∉ rawStr v)
    (hd : '<' ∉ d) : '<' ∉ jsOr v d := by
  cases v with
  | none => simpa [jsOr] using hd
  | some s =>
    simp only [rawStr, Option.getD] at hv
    rw [jsOr]
    split <;> assumption

theorem natToStrAux_mem {fuel n : Nat} {c : Char}
    (h : c ∈ natToStrAux fuel n) : ∃ d, d < 10 ∧ c = digitChar d := by
  induction fuel generalizing n with
  | zero => simp [natToStrAux] at h
  | succ f ih =>
    rw [natToStrAux] at h
    split at h
    · next hlt =>
      simp only [List.mem_singleton] at h
      exact ⟨n, hlt, h⟩
    · rcases List.mem_append.mp h with h' | h'
      · exact ih h'
      · simp only [List.mem_singleton] at h'
        exact ⟨n % 10, Nat.mod_lt _ (by norm_num), h'⟩

theorem digitChar_ne_lt : ∀ d, d < 10 → digitChar d ≠ '<' := by decide

theorem lt_not_mem_natToStr (n : Nat) : '<' ∉ natToStr n := by
  intro h
  obtain ⟨d, hd, he⟩ := natToStrAux_mem h
  exact digitChar_ne_lt d hd he.symm

theorem lt_not_mem_natStrOpt (v : Option Nat) : '<' ∉ natStrOpt v := by
  cases v with
  | none => simp [natStrOpt]
  | some n => exact lt_not_mem_natToStr n

theorem lt_not_mem_jsToFixed2Pos (x : Rat) : '<' ∉ jsToFixed2Pos x := by
  intro h
  simp only [jsToFixed2Pos, List.mem_append, List.mem_cons,
    List.not_mem_nil, or_false] at h
  rcases h with h' | h' | h' | h'
  · exact lt_not_mem_natToStr _ h'
  · exact absurd h' (by decide)
  · exact digitChar_ne_lt _ (by omega) h'.symm
  · exact digitChar_ne_lt _ (by omega) h'.symm

theorem lt_not_mem_jsPriceStr (v : Option Rat) : '<' ∉ jsPriceStr v := by
  cases v with
  | none => decide
  | some q =>
    simp only [jsPriceStr, jsToFixed2]
    split
    · intro h
      rcases List.mem_cons.mp h with h' | h'
      · exact absurd h' (by decide)
      · exact lt_not_mem_jsToFixed2Pos _ h'
    · exact lt_not_mem_jsToFixed2Pos _

/-! ### Per-piece facts (pattern `<script>` / `<nav`), each decided on the concrete literal -/

theorem pf_sc_pm1 : PF scriptTag pm1 :=
  ⟨by decide, dangerFree_check _ _ (by decide)⟩

theorem pf_sc_pm2 : PF scriptTag pm2 :=
  ⟨by decide, dangerFree_check _ _ (by decide)⟩

theorem pf_sc_pm3 : PF scriptTag pm3 :=
  ⟨by decide, dangerFree_check _ _ (by decide)⟩

theorem pf_sc_mVarPrim : PF scriptTag mVarPrim := PF_sc_of_clean (by decide)

theorem pf_sc_mSemi : PF scriptTag mSemi := PF_sc_of_clean (by decide)

theorem pf_sc_pm4 : PF scriptTag pm4 := PF_sc_of_clean (by decide)

theorem pf_sc_mVarSec : PF scriptTag mVarSec := PF_sc_of_clean (by decide)

theorem pf_sc_mVarAcc : PF scriptTag mVarAcc := PF_sc_of_clean (by decide)

theorem pf_sc_mVarBg : PF scriptTag mVarBg := PF_sc_of_clean (by decide)

theorem pf_sc_mVarTxt : PF scriptTag mVarTxt := PF_sc_of_clean (by decide)

theorem pf_sc_pm8 : PF scriptTag pm8 := PF_sc_of_clean (by decide)

theorem pf_sc_pm9 : PF scriptTag pm9 :=
  ⟨by decide, dangerFree_check _ _ (by decide)⟩

theorem pf_sc_pm10 : PF scriptTag pm10 := PF_sc_of_clean (by decide)

theorem pf_sc_pm11 : PF scriptTag pm11 := PF_sc_of_clean (by decide)

theorem pf_sc_pm12 : PF scriptTag pm12 := PF_sc_of_clean (by decide)

theorem pf_sc_pm13 : PF scriptTag pm13 := PF_sc_of_clean (by decide)

theorem pf_sc_pm14 : PF scriptTag pm14 := PF_sc_of_clean (by decide)

theorem pf_sc_pm15 : PF scriptTag pm15 := PF_sc_of_clean (by decide)

theorem pf_sc_pm16 : PF scriptTag pm16 := PF_sc_of_clean (by decide)

theorem pf_sc_pm17 : PF scriptTag pm17 := PF_sc_of_clean (by decide)

theorem pf_sc_pm18 : PF scriptTag pm18 := PF_sc_of_clean (by decide)

theorem pf_sc_pm19 : PF scriptTag pm19 := PF_sc_of_clean (by decide)

theorem pf_sc_pm20 : PF scriptTag pm20 :=
  ⟨by decide, dangerFree_check _ _ (by decide)⟩

theorem pf_sc_pm21 : PF scriptTag pm21 := PF_sc_of_clean (by decide)

theorem pf_sc_mH1Open : PF scriptTag mH1Open :=
  ⟨by decide, dangerFree_check _ _ (by decide)⟩

theorem pf_sc_mH1Close : PF scriptTag mH1Close :=
  ⟨by decide, dangerFree_check _ _ (by decide)⟩

theorem pf_sc_pm23 : PF scriptTag pm23 :=
  ⟨by decide, dangerFree_check _ _ (by decide)⟩

theorem pf_sc_pm24 : PF scriptTag pm24 :=
  ⟨by decide, dangerFree_check _ _ (by decide)⟩

theorem pf_sc_pm25 : PF scriptTag pm25 :=
  ⟨by decide, dangerFree_check _ _ (by decide)⟩

theorem pf_sc_pm26 : PF scriptTag pm26 :=
  ⟨by decide, dangerFree_check _ _ (by decide)⟩

theorem pf_sc_pm27 : PF scriptTag pm27 :=
  ⟨by decide, dangerFree_check _ _ (by decide)⟩

theorem pf_sc_pm29 : PF scriptTag pm29 :=
  ⟨by decide, dangerFree_check _ _ (by decide)⟩

theorem sc1_mScriptOpen : countOcc scriptTag mScriptOpen = 1 := by decide

theorem dfsc_mScriptOpen : dangerFree scriptTag mScriptOpen :=
  dangerFree_check _ _ (by decide)

theorem pf_sc_pm30 : PF scriptTag pm30 := PF_sc_of_clean (by decide)

theorem pf_sc_pm31 : PF scriptTag pm31 :=
  ⟨by decide, dangerFree_check _ _ (by decide)⟩

theorem pf_sc_mHtmlEnd : PF scriptTag mHtmlEnd :=
  ⟨by decide, dangerFree_check _ _ (by decide)⟩

theorem pf_sc_pim32 : PF scriptTag pim32 :=
  ⟨by decide, dangerFree_check _ _ (by decide)⟩

theorem pf_sc_pim33 : PF scriptTag pim33 := PF_sc_of_clean (by decide)

theorem pf_sc_pim34 : PF scriptTag pim34 := PF_sc_of_clean (by decide)

theorem pf_sc_plp35 : PF scriptTag plp35 :=
  ⟨by decide, dangerFree_check _ _ (by decide)⟩

theorem pf_sc_ptg36 : PF scriptTag ptg36 :=
  ⟨by decide, dangerFree_check _ _ (by decide)⟩

theorem pf_sc_ptg37 : PF scriptTag ptg37 :=
  ⟨by decide, dangerFree_check _ _ (by decide)⟩

theorem pf_sc_pad38 : PF scriptTag pad38 :=
  ⟨by decide, dangerFree_check _ _ (by decide)⟩

theorem pf_sc_pnv40 : PF scriptTag pnv40 := PF_sc_of_clean (by decide)

theorem pf_sc_mNavOpen : PF scriptTag mNavOpen :=
  ⟨by decide, dangerFree_check _ _ (by decide)⟩

theorem pf_sc_pnv41 : PF scriptTag pnv41 :=
  ⟨by decide, dangerFree_check _ _ (by decide)⟩

theorem pf_sc_pnv42 : PF scriptTag pnv42 :=
  ⟨by decide, dangerFree_check _ _ (by decide)⟩

theorem pf_sc_pbt43 : PF scriptTag pbt43 :=
  ⟨by decide, dangerFree_check _ _ (by decide)⟩

theorem pf_sc_pbt44 : PF scriptTag pbt44 := PF_sc_of_clean (by decide)

theorem pf_sc_mDataCat : PF scriptTag mDataCat := PF_sc_of_clean (by decide)

theorem pf_sc_pbt45 : PF scriptTag pbt45 := PF_sc_of_clean (by decide)

theorem pf_sc_pbt46 : PF scriptTag pbt46 := PF_sc_of_clean (by decide)

theorem pf_sc_pbt47 : PF scriptTag pbt47 :=
  ⟨by decide, dangerFree_check _ _ (by decide)⟩

theorem pf_sc_mActive : PF scriptTag mActive := PF_sc_of_clean (by decide)

theorem pf_sc_pme48 : PF scriptTag pme48 :=
  ⟨by decide, dangerFree_check _ _ (by decide)⟩

theorem pf_sc_mComingSoon : PF scriptTag mComingSoon := PF_sc_of_clean (by decide)

theorem pf_sc_pme49 : PF scriptTag pme49 :=
  ⟨by decide, dangerFree_check _ _ (by decide)⟩

theorem pf_sc_psc50 : PF scriptTag psc50 :=
  ⟨by decide, dangerFree_check _ _ (by decide)⟩

theorem pf_sc_psc51 : PF scriptTag psc51 :=
  ⟨by decide, dangerFree_check _ _ (by decide)⟩

theorem pf_sc_psc52 : PF scriptTag psc52 := PF_sc_of_clean (by decide)

theorem pf_sc_psc53 : PF scriptTag psc53 :=
  ⟨by decide, dangerFree_check _ _ (by decide)⟩

theorem pf_sc_psc54 : PF scriptTag psc54 :=
  ⟨by decide, dangerFree_check _ _ (by decide)⟩

theorem pf_sc_psc55 : PF scriptTag psc55 :=
  ⟨by decide, dangerFree_check _ _ (by decide)⟩

theorem pf_sc_pic56 : PF scriptTag pic56 :=
  ⟨by decide, dangerFree_check _ _ (by decide)⟩

theorem pf_sc_pic57 : PF scriptTag pic57 :=
  ⟨by decide, dangerFree_check _ _ (by decide)⟩

theorem pf_sc_pcd58 : PF scriptTag pcd58 :=
  ⟨by decide, dangerFree_check _ _ (by decide)⟩

theorem pf_sc_pni60 : PF scriptTag pni60 :=
  ⟨by decide, dangerFree_check _ _ (by decide)⟩

theorem pf_sc_mNoItems : PF scriptTag mNoItems := PF_sc_of_clean (by decide)

theorem pf_sc_pni61 : PF scriptTag pni61 :=
  ⟨by decide, dangerFree_check _ _ (by decide)⟩

theorem pf_sc_pph62 : PF scriptTag pph62 :=
  ⟨by decide, dangerFree_check _ _ (by decide)⟩

theorem pf_sc_pph63 : PF scriptTag pph63 :=
  ⟨by decide, dangerFree_check _ _ (by decide)⟩

theorem pf_sc_pph64 : PF scriptTag pph64 :=
  ⟨by decide, dangerFree_check _ _ (by decide)⟩

theorem pf_sc_pem65 : PF scriptTag pem65 :=
  ⟨by decide, dangerFree_check _ _ (by decide)⟩

theorem pf_sc_pem66 : PF scriptTag pem66 :=
  ⟨by decide, dangerFree_check _ _ (by decide)⟩

theorem pf_sc_pwb67 : PF scriptTag pwb67 :=
  ⟨by decide, dangerFree_check _ _ (by decide)⟩

theorem pf_sc_pwb68 : PF scriptTag pwb68 :=
  ⟨by decide, dangerFree_check _ _ (by decide)⟩

theorem pf_sc_pwb69 : PF scriptTag pwb69 :=
  ⟨by decide, dangerFree_check _ _ (by decide)⟩

theorem pf_sc_pcw70 : PF scriptTag pcw70 :=
  ⟨by decide, dangerFree_check _ _ (by decide)⟩

theorem pf_sc_pcw71 : PF scriptTag pcw71 :=
  ⟨by decide, dangerFree_check _ _ (by decide)⟩

theorem pf_sc_pig72 : PF scriptTag pig72 :=
  ⟨by decide, dangerFree_check _ _ (by decide)⟩

theorem pf_sc_pig73 : PF scriptTag pig73 :=
  ⟨by decide, dangerFree_check _ _ (by decide)⟩

theorem pf_sc_pig74 : PF scriptTag pig74 :=
  ⟨by decide, dangerFree_check _ _ (by decide)⟩

theorem pf_sc_pfb75 : PF scriptTag pfb75 :=
  ⟨by decide, dangerFree_check _ _ (by decide)⟩

theorem pf_sc_pfb76 : PF scriptTag pfb76 :=
  ⟨by decide, dangerFree_check _ _ (by decide)⟩

theorem pf_sc_psw77 : PF scriptTag psw77 :=
  ⟨by decide, dangerFree_check _ _ (by decide)⟩

theorem pf_sc_pit79 : PF scriptTag pit79 :=
  ⟨by decide, dangerFree_check _ _ (by decide)⟩

theorem pf_sc_pit80 : PF scriptTag pit80 :=
  ⟨by decide, dangerFree_check _ _ (by decide)⟩

theorem pf_sc_pit81 : PF scriptTag pit81 :=
  ⟨by decide, dangerFree_check _ _ (by decide)⟩

theorem pf_sc_pit82 : PF scriptTag pit82 :=
  ⟨by decide, dangerFree_check _ _ (by decide)⟩

theorem pf_sc_pit83 : PF scriptTag pit83 := PF_sc_of_clean (by decide)

theorem pf_sc_pit84 : PF scriptTag pit84 :=
  ⟨by decide, dangerFree_check _ _ (by decide)⟩

theorem pf_sc_pit85 : PF scriptTag pit85 := PF_sc_of_clean (by decide)

theorem pf_sc_pit86 : PF scriptTag pit86 :=
  ⟨by decide, dangerFree_check _ _ (by decide)⟩

theorem pf_sc_pii89 : PF scriptTag pii89 := PF_sc_of_clean (by decide)

theorem pf_sc_pip90 : PF scriptTag pip90 :=
  ⟨by decide, dangerFree_check _ _ (by decide)⟩

theorem pf_sc_mBadgesOpen : PF scriptTag mBadgesOpen :=
  ⟨by decide, dangerFree_check _ _ (by decide)⟩

theorem pf_sc_mDivClose : PF scriptTag mDivClose :=
  ⟨by decide, dangerFree_check _ _ (by decide)⟩

theorem pf_sc_mOrigOpen : PF scriptTag mOrigOpen :=
  ⟨by decide, dangerFree_check _ _ (by decide)⟩

theorem pf_sc_pid91 : PF scriptTag pid91 :=
  ⟨by decide, dangerFree_check _ _ (by decide)⟩

theorem pf_sc_pcl93 : PF scriptTag pcl93 :=
  ⟨by decide, dangerFree_check _ _ (by decide)⟩

theorem pf_sc_pcl94 : PF scriptTag pcl94 :=
  ⟨by decide, dangerFree_check _ _ (by decide)⟩

theorem pf_sc_bBestseller : PF scriptTag bBestseller :=
  ⟨by decide, dangerFree_check _ _ (by decide)⟩

theorem pf_sc_bNew : PF scriptTag bNew :=
  ⟨by decide, dangerFree_check _ _ (by decide)⟩

theorem pf_sc_bVegan : PF scriptTag bVegan :=
  ⟨by decide, dangerFree_check _ _ (by decide)⟩

theorem pf_sc_bVegetarian : PF scriptTag bVegetarian :=
  ⟨by decide, dangerFree_check _ _ (by decide)⟩

theorem pf_sc_bSpicy : PF scriptTag bSpicy :=
  ⟨by decide, dangerFree_check _ _ (by decide)⟩

theorem pf_sc_bGf : PF scriptTag bGf :=
  ⟨by decide, dangerFree_check _ _ (by decide)⟩

theorem pf_sc_dfltTagline : PF scriptTag dfltTagline := PF_sc_of_clean (by decide)

theorem pf_sc_dfltPrimary : PF scriptTag dfltPrimary := PF_sc_of_clean (by decide)

theorem pf_sc_dfltSecondary : PF scriptTag dfltSecondary := PF_sc_of_clean (by decide)

theorem pf_sc_dfltAccent : PF scriptTag dfltAccent := PF_sc_of_clean (by decide)

theorem pf_sc_dfltBackground : PF scriptTag dfltBackground := PF_sc_of_clean (by decide)

theorem pf_sc_dfltText : PF scriptTag dfltText := PF_sc_of_clean (by decide)

theorem pf_sc_dfltCurrency : PF scriptTag dfltCurrency := PF_sc_of_clean (by decide)

theorem pf_nv_pm1 : PF navTag pm1 :=
  ⟨by decide, dangerFree_check _ _ (by decide)⟩

theorem pf_nv_pm2 : PF navTag pm2 :=
  ⟨by decide, dangerFree_check _ _ (by decide)⟩

theorem pf_nv_pm3 : PF navTag pm3 :=
  ⟨by decide, dangerFree_check _ _ (by decide)⟩

theorem pf_nv_mVarPrim : PF navTag mVarPrim := PF_nv_of_clean (by decide)

theorem pf_nv_mSemi : PF navTag mSemi := PF_nv_of_clean (by decide)

theorem pf_nv_pm4 : PF navTag pm4 := PF_nv_of_clean (by decide)

theorem pf_nv_mVarSec : PF navTag mVarSec := PF_nv_of_clean (by decide)

theorem pf_nv_mVarAcc : PF navTag mVarAcc := PF_nv_of_clean (by decide)

theorem pf_nv_mVarBg : PF navTag mVarBg := PF_nv_of_clean (by decide)

theorem pf_nv_mVarTxt : PF navTag mVarTxt := PF_nv_of_clean (by decide)

theorem pf_nv_pm8 : PF navTag pm8 := PF_nv_of_clean (by decide)

theorem pf_nv_pm9 : PF navTag pm9 :=
  ⟨by decide, dangerFree_check _ _ (by decide)⟩

theorem pf_nv_pm10 : PF navTag pm10 := PF_nv_of_clean (by decide)

theorem pf_nv_pm11 : PF navTag pm11 := PF_nv_of_clean (by decide)

theorem pf_nv_pm12 : PF navTag pm12 := PF_nv_of_clean (by decide)

theorem pf_nv_pm13 : PF navTag pm13 := PF_nv_of_clean (by decide)

theorem pf_nv_pm14 : PF navTag pm14 := PF_nv_of_clean (by decide)

theorem pf_nv_pm15 : PF navTag pm15 := PF_nv_of_clean (by decide)

theorem pf_nv_pm16 : PF navTag pm16 := PF_nv_of_clean (by decide)

theorem pf_nv_pm17 : PF navTag pm17 := PF_nv_of_clean (by decide)

theorem pf_nv_pm18 : PF navTag pm18 := PF_nv_of_clean (by decide)

theorem pf_nv_pm19 : PF navTag pm19 := PF_nv_of_clean (by decide)

theorem pf_nv_pm20 : PF navTag pm20 :=
  ⟨by decide, dangerFree_check _ _ (by decide)⟩

theorem pf_nv_pim32 : PF navTag pim32 :=
  ⟨by decide, dangerFree_check _ _ (by decide)⟩

theorem pf_nv_pim33 : PF navTag pim33 := PF_nv_of_clean (by decide)

theorem pf_nv_pim34 : PF navTag pim34 := PF_nv_of_clean (by decide)

theorem pf_nv_plp35 : PF navTag plp35 :=
  ⟨by decide, dangerFree_check _ _ (by decide)⟩

theorem pf_nv_pm21 : PF navTag pm21 := PF_nv_of_clean (by decide)

theorem pf_nv_mH1Open : PF navTag mH1Open :=
  ⟨by decide, dangerFree_check _ _ (by decide)⟩

theorem pf_nv_mH1Close : PF navTag mH1Close :=
  ⟨by decide, dangerFree_check _ _ (by decide)⟩

theorem pf_nv_ptg36 : PF navTag ptg36 :=
  ⟨by decide, dangerFree_check _ _ (by decide)⟩

theorem pf_nv_ptg37 : PF navTag ptg37 :=
  ⟨by decide, dangerFree_check _ _ (by decide)⟩

theorem pf_nv_pm23 : PF navTag pm23 :=
  ⟨by decide, dangerFree_check _ _ (by decide)⟩

theorem pf_nv_pm24 : PF navTag pm24 :=
  ⟨by decide, dangerFree_check _ _ (by decide)⟩

theorem pf_nv_pm25 : PF navTag pm25 :=
  ⟨by decide, dangerFree_check _ _ (by decide)⟩

theorem pf_nv_pme48 : PF navTag pme48 :=
  ⟨by decide, dangerFree_check _ _ (by decide)⟩

theorem pf_nv_mComingSoon : PF navTag mComingSoon := PF_nv_of_clean (by decide)

theorem pf_nv_pme49 : PF navTag pme49 :=
  ⟨by decide, dangerFree_check _ _ (by decide)⟩

theorem pf_nv_pm26 : PF navTag pm26 :=
  ⟨by decide, dangerFree_check _ _ (by decide)⟩

theorem pf_nv_pm27 : PF navTag pm27 :=
  ⟨by decide, dangerFree_check _ _ (by decide)⟩

theorem pf_nv_pad38 : PF navTag pad38 :=
  ⟨by decide, dangerFree_check _ _ (by decide)⟩

theorem pf_nv_pm29 : PF navTag pm29 :=
  ⟨by decide, dangerFree_check _ _ (by decide)⟩

theorem pf_nv_mScriptOpen : PF navTag mScriptOpen :=
  ⟨by decide, dangerFree_check _ _ (by decide)⟩

theorem pf_nv_pm30 : PF navTag pm30 := PF_nv_of_clean (by decide)

theorem pf_nv_pm31 : PF navTag pm31 :=
  ⟨by decide, dangerFree_check _ _ (by decide)⟩

theorem pf_nv_mHtmlEnd : PF navTag mHtmlEnd :=
  ⟨by decide, dangerFree_check _ _ (by decide)⟩

theorem pf_nv_pph62 : PF navTag pph62 :=
  ⟨by decide, dangerFree_check _ _ (by decide)⟩

theorem pf_nv_pph63 : PF navTag pph63 :=
  ⟨by decide, dangerFree_check _ _ (by decide)⟩

theorem pf_nv_pph64 : PF navTag pph64 :=
  ⟨by decide, dangerFree_check _ _ (by decide)⟩

theorem pf_nv_pem65 : PF navTag pem65 :=
  ⟨by decide, dangerFree_check _ _ (by decide)⟩

theorem pf_nv_pem66 : PF navTag pem66 :=
  ⟨by decide, dangerFree_check _ _ (by decide)⟩

theorem pf_nv_pwb67 : PF navTag pwb67 :=
  ⟨by decide, dangerFree_check _ _ (by decide)⟩

theorem pf_nv_pwb68 : PF navTag pwb68 :=
  ⟨by decide, dangerFree_check _ _ (by decide)⟩

theorem pf_nv_pwb69 : PF navTag pwb69 :=
  ⟨by decide, dangerFree_check _ _ (by decide)⟩

theorem pf_nv_pcw70 : PF navTag pcw70 :=
  ⟨by decide, dangerFree_check _ _ (by decide)⟩

theorem pf_nv_pcw71 : PF navTag pcw71 :=
  ⟨by decide, dangerFree_check _ _ (by decide)⟩

theorem pf_nv_pig72 : PF navTag pig72 :=
  ⟨by decide, dangerFree_check _ _ (by decide)⟩

theorem pf_nv_pig73 : PF navTag pig73 :=
  ⟨by decide, dangerFree_check _ _ (by decide)⟩

theorem pf_nv_pig74 : PF navTag pig74 :=
  ⟨by decide, dangerFree_check _ _ (by decide)⟩

theorem pf_nv_pfb75 : PF navTag pfb75 :=
  ⟨by decide, dangerFree_check _ _ (by decide)⟩

theorem pf_nv_pfb76 : PF navTag pfb76 :=
  ⟨by decide, dangerFree_check _ _ (by decide)⟩

theorem pf_nv_psw77 : PF navTag psw77 :=
  ⟨by decide, dangerFree_check _ _ (by decide)⟩

theorem pf_nv_dfltPrimary : PF navTag dfltPrimary := PF_nv_of_clean (by decide)

theorem pf_nv_dfltSecondary : PF navTag dfltSecondary := PF_nv_of_clean (by decide)

theorem pf_nv_dfltAccent : PF navTag dfltAccent := PF_nv_of_clean (by decide)

theorem pf_nv_dfltBackground : PF navTag dfltBackground := PF_nv_of_clean (by decide)

theorem pf_nv_dfltText : PF navTag dfltText := PF_nv_of_clean (by decide)

theorem pf_nv_dfltCurrency : PF navTag dfltCurrency := PF_nv_of_clean (by decide)

theorem ltf_dfltPrimary : '<' ∉ dfltPrimary := by decide

theorem ltf_dfltSecondary : '<' ∉ dfltSecondary := by decide

theorem ltf_dfltAccent : '<' ∉ dfltAccent := by decide

theorem ltf_dfltBackground : '<' ∉ dfltBackground := by decide

theorem ltf_dfltText : '<' ∉ dfltText := by decide

theorem ltf_dfltCurrency : '<' ∉ dfltCurrency := by decide

/-- Occurrences of `<script>` in the static tail of the document (the script
block and the closing tags): exactly the opening tag of the script block. -/
theorem sc_tailCount :
    countOcc scriptTag (mScriptOpen ++ (pm30 ++ (pm31 ++ mHtmlEnd))) = 1 := by
  decide

/-- The static tail contains no `<nav`. -/
theorem nv_tailCount :
    countOcc navTag (mScriptOpen ++ (pm30 ++ (pm31 ++ mHtmlEnd))) = 0 := by
  decide

/-- The five default theme colour literals are pairwise distinct. -/
theorem dflt_distinct :
    [dfltPrimary, dfltSecondary, dfltAccent, dfltBackground, dfltText].Nodup := by
  decide

theorem dfltPrimary_ne_nil : dfltPrimary ≠ [] := by decide

theorem dfltSecondary_ne_nil : dfltSecondary ≠ [] := by decide

theorem dfltAccent_ne_nil : dfltAccent ≠ [] := by decide

theorem dfltBackground_ne_nil : dfltBackground ≠ [] := by decide

theorem dfltText_ne_nil : dfltText ≠ [] := by decide

theorem navTag_pre_mNavOpen : navTag <+: mNavOpen := by decide

-- The pieces are fully analysed above; sealing them keeps later unification
-- from unfolding the (large) literals.
attribute [irreducible] pm1 pm2 pm3 mVarPrim mSemi pm4 mVarSec mVarAcc mVarBg mVarTxt pm8 pm9 pm10 pm11 pm12 pm13 pm14 pm15 pm16 pm17 pm18 pm19 pm20 pm21 mH1Open mH1Close pm23 pm24 pm25 pm26 pm27 pm29 mScriptOpen pm30 pm31 mHtmlEnd pim32 pim33 pim34 plp35 ptg36 ptg37 pad38 pnv40 mNavOpen pnv41 pnv42 pbt43 pbt44 mDataCat pbt45 pbt46 pbt47 mActive pme48 mComingSoon pme49 psc50 psc51 psc52 psc53 psc54 psc55 pic56 pic57 pcd58 pni60 mNoItems pni61 pph62 pph63 pph64 pem65 pem66 pwb67 pwb68 pwb69 pcw70 pcw71 pig72 pig73 pig74 pfb75 pfb76 psw77 pit79 pit80 pit81 pit82 pit83 pit84 pit85 pit86 pii89 pip90 mBadgesOpen mDivClose mOrigOpen pid91 pcl93 pcl94 bBestseller bNew bVegan bVegetarian bSpicy bGf dfltTagline dfltPrimary dfltSecondary dfltAccent dfltBackground dfltText dfltCurrency

/-! ### Pattern-freedom of the variable document parts -/

theorem PF.peel {p a : Str} (h : PF p a) (b : Str) :
    countOcc p (a ++ b) = countOcc p b := czap b h.2 h.1

theorem dangerFree_flatten {p : Str} {fs : List Str}
    (h : ∀ f ∈ fs, dangerFree p f) : dangerFree p fs.flatten := by
  induction fs with
  | nil => exact dangerFree_nil p
  | cons f fs ih =>
    rw [List.flatten_cons]
    exact dangerFree_append (h f (by simp)) (ih fun g hg => h g (by simp [hg]))

theorem PF_flatten {p : Str} {fs : List Str} (h : ∀ f ∈ fs, PF p f) :
    PF p fs.flatten := by
  refine ⟨?_, dangerFree_flatten fun f hf => (h f hf).2⟩
  rw [countOcc_flatten p fs fun f hf => (h f hf).2]
  refine List.sum_eq_zero ?_
  intro x hx
  obtain ⟨f, hf, rfl⟩ := List.mem_map.mp hx
  exact (h f hf).1

theorem pf_sc_escapeHtml (s : Str) : PF scriptTag (escapeHtml s) :=
  PF_sc_of_clean (lt_not_mem_escapeHtml s)

theorem pf_sc_escapeHtmlOpt (v : Option Str) : PF scriptTag (escapeHtmlOpt v) :=
  pf_sc_escapeHtml (rawStr v)

theorem pf_nv_escapeHtml (s : Str) : PF navTag (escapeHtml s) :=
  PF_nv_of_clean (lt_not_mem_escapeHtml s)

theorem pf_nv_escapeHtmlOpt (v : Option Str) : PF navTag (escapeHtmlOpt v) :=
  pf_nv_escapeHtml (rawStr v)

theorem pf_sc_contactBar {c : Cafe} (h : CleanCafe c) :
    PF scriptTag (generateContactBar c) := by
  obtain ⟨-, hph, hem, hwb, -, -, -, -, -, -, -, -⟩ := h
  have hfs : ∀ f ∈ contactsList c, PF scriptTag f := by
    intro f hf
    simp only [contactsList, List.mem_append] at hf
    rcases hf with (hf | hf) | hf
    · split at hf
      · rw [List.mem_singleton] at hf
        subst hf
        simp only [List.append_assoc]
        exact PF_append pf_sc_pph62 (PF_append (PF_sc_of_clean hph)
          (PF_append pf_sc_pph63 (PF_append (pf_sc_escapeHtmlOpt _) pf_sc_pph64)))
      · simp at hf
    · split at hf
      · rw [List.mem_singleton] at hf
        subst hf
        simp only [List.append_assoc]
        exact PF_append pf_sc_pem65 (PF_append (PF_sc_of_clean hem) pf_sc_pem66)
      · simp at hf
    · split at hf
      · rw [List.mem_singleton] at hf
        subst hf
        simp only [List.append_assoc]
        exact PF_append pf_sc_pwb67 (PF_append (PF_sc_of_clean hwb)
          (PF_append pf_sc_pwb68 pf_sc_pwb69))
      · simp at hf
  rw [generateContactBar]
  split
  · exact PF_nil _
  · simp only [List.append_assoc]
    exact PF_append pf_sc_pcw70 (PF_append (PF_flatten hfs) pf_sc_pcw71)

theorem pf_nv_contactBar {c : Cafe} (h : CleanCafe c) :
    PF navTag (generateContactBar c) := by
  obtain ⟨-, hph, hem, hwb, -, -, -, -, -, -, -, -⟩ := h
  have hfs : ∀ f ∈ contactsList c, PF navTag f := by
    intro f hf
    simp only [contactsList, List.mem_append] at hf
    rcases hf with (hf | hf) | hf
    · split at hf
      · rw [List.mem_singleton] at hf
        subst hf
        simp only [List.append_assoc]
        exact PF_append pf_nv_pph62 (PF_append (PF_nv_of_clean hph)
          (PF_append pf_nv_pph63 (PF_append (pf_nv_escapeHtmlOpt _) pf_nv_pph64)))
      · simp at hf
    · split at hf
      · rw [List.mem_singleton] at hf
        subst hf
        simp only [List.append_assoc]
        exact PF_append pf_nv_pem65 (PF_append (PF_nv_of_clean hem) pf_nv_pem66)
      · simp at hf
    · split at hf
      · rw [List.mem_singleton] at hf
        subst hf
        simp only [List.append_assoc]
        exact PF_append pf_nv_pwb67 (PF_append (PF_nv_of_clean hwb)
          (PF_append pf_nv_pwb68 pf_nv_pwb69))
      · simp at hf
  rw [generateContactBar]
  split
  · exact PF_nil _
  · simp only [List.append_assoc]
    exact PF_append pf_nv_pcw70 (PF_append (PF_flatten hfs) pf_nv_pcw71)

theorem pf_sc_socialLinks {c : Cafe} (h : CleanCafe c) :
    PF scriptTag (generateSocialLinks c) := by
  obtain ⟨-, -, -, -, hig, hfb, -, -, -, -, -, -⟩ := h
  have hfs : ∀ f ∈ socialList c, PF scriptTag f := by
    intro f hf
    simp only [socialList, List.mem_append] at hf
    rcases hf with hf | hf
    · split at hf
      · rw [List.mem_singleton] at hf
        subst hf
        simp only [List.append_assoc]
        exact PF_append pf_sc_pig72 (PF_append (PF_sc_of_clean hig)
          (PF_append pf_sc_pig73 pf_sc_pig74))
      · simp at hf
    · split at hf
      · rw [List.mem_singleton] at hf
        subst hf
        simp only [List.append_assoc]
        exact PF_append pf_sc_pfb75 (PF_append (PF_sc_of_clean hfb) pf_sc_pfb76)
      · simp at hf
  rw [generateSocialLinks]
  split
  · exact PF_nil _
  · simp only [List.append_assoc]
    exact PF_append pf_sc_psw77 (PF_append (PF_flatten hfs) pf_sc_pcw71)

theorem pf_nv_socialLinks {c : Cafe} (h : CleanCafe c) :
    PF navTag (generateSocialLinks c) := by
  obtain ⟨-, -, -, -, hig, hfb, -, -, -, -, -, -⟩ := h
  have hfs : ∀ f ∈ socialList c, PF navTag f := by
    intro f hf
    simp only [socialList, List.mem_append] at hf
    rcases hf with hf | hf
    · split at hf
      · rw [List.mem_singleton] at hf
        subst hf
        simp only [List.append_assoc]
        exact PF_append pf_nv_pig72 (PF_append (PF_nv_of_clean hig)
          (PF_append pf_nv_pig73 pf_nv_pig74))
      · simp at hf
    · split at hf
      · rw [List.mem_singleton] at hf
        subst hf
        simp only [List.append_assoc]
        exact PF_append pf_nv_pfb75 (PF_append (PF_nv_of_clean hfb) pf_nv_pfb76)
      · simp at hf
  rw [generateSocialLinks]
  split
  · exact PF_nil _
  · simp only [List.append_assoc]
    exact PF_append pf_nv_psw77 (PF_append (PF_flatten hfs) pf_nv_pcw71)

theorem pf_sc_badges (it : Item) : ∀ f ∈ itemBadges it, PF scriptTag f := by
  intro f hf
  simp only [itemBadges, List.mem_append] at hf
  rcases hf with ((((hf | hf) | hf) | hf) | hf) | hf <;> split at hf <;>
    first
    | exact absurd hf (List.not_mem_nil f)
    | (rw [List.mem_singleton] at hf
       subst hf
       first
       | exact pf_sc_bBestseller
       | exact pf_sc_bNew
       | exact pf_sc_bVegan
       | exact pf_sc_bVegetarian
       | exact pf_sc_bSpicy
       | exact pf_sc_bGf)

theorem pf_sc_itemHTML (it : Item) {cur : Str} (hit : CleanItem it)
    (hcur : '<' ∉ cur) : PF scriptTag (generateItemHTML it cur) := by
  rw [generateItemHTML]
  simp only [List.append_assoc]
  refine PF_append pf_sc_pit79 (PF_append ?img (PF_append pf_sc_pit80
    (PF_append (pf_sc_escapeHtmlOpt _) (PF_append pf_sc_pit81
    (PF_append ?bdg (PF_append pf_sc_pit82 (PF_append (PF_sc_of_clean hcur)
    (PF_append (PF_sc_of_clean (lt_not_mem_jsPriceStr _)) (PF_append pf_sc_pit83
    (PF_append ?org (PF_append pf_sc_pit84 (PF_append ?dsc
    (PF_append pf_sc_pit85 (PF_append ?cal pf_sc_pit86))))))))))))))
  case img =>
    refine PF_ite ?_ pf_sc_pip90
    exact PF_append pf_sc_pim32 (PF_append (PF_sc_of_clean hit)
      (PF_append pf_sc_pim33 (PF_append (pf_sc_escapeHtmlOpt _) pf_sc_pii89)))
  case bdg =>
    refine PF_ite ?_ (PF_nil _)
    exact PF_append pf_sc_mBadgesOpen
      (PF_append (PF_flatten (pf_sc_badges it)) pf_sc_mDivClose)
  case org =>
    refine PF_ite ?_ (PF_nil _)
    exact PF_append pf_sc_mOrigOpen (PF_append (PF_sc_of_clean hcur)
      (PF_append (PF_sc_of_clean (lt_not_mem_jsPriceStr _)) pf_sc_pic57))
  case dsc =>
    refine PF_ite ?_ (PF_nil _)
    exact PF_append pf_sc_pid91 (PF_append (pf_sc_escapeHtmlOpt _) pf_sc_ptg37)
  case cal =>
    refine PF_ite ?_ (PF_nil _)
    exact PF_append pf_sc_pcl93
      (PF_append (PF_sc_of_clean (lt_not_mem_natStrOpt _)) pf_sc_pcl94)

theorem pf_sc_itemsHtml {cur : Str} (hcur : '<' ∉ cur) :
    ∀ its : List Item, (∀ it ∈ its, CleanItem it) →
      PF scriptTag (itemsHtml cur its) := by
  intro its
  induction its with
  | nil => intro _; exact PF_nil _
  | cons it its ih =>
    intro h
    rw [itemsHtml]
    exact PF_append (pf_sc_itemHTML it (h it (by simp)) hcur)
      (ih fun j hj => h j (by simp [hj]))

theorem pf_sc_sectionHtml {cur : Str} (hcur : '<' ∉ cur) (cat : Category)
    (hcat : CleanCat cat) : PF scriptTag (sectionHtml cur cat) := by
  obtain ⟨hid, hicon, hits⟩ := hcat
  rw [sectionHtml]
  simp only [List.append_assoc]
  refine PF_append pf_sc_psc50 (PF_append (PF_sc_of_clean hid)
    (PF_append pf_sc_psc51 (PF_append ?icn (PF_append pf_sc_psc52
    (PF_append (pf_sc_escapeHtmlOpt _) (PF_append pf_sc_psc53
    (PF_append ?dsc (PF_append pf_sc_psc54
    (PF_append ?its pf_sc_psc55)))))))))
  case icn =>
    refine PF_ite ?_ (PF_nil _)
    exact PF_append pf_sc_pic56 (PF_append (PF_sc_of_clean hicon) pf_sc_pic57)
  case dsc =>
    refine PF_ite ?_ (PF_nil _)
    exact PF_append pf_sc_pcd58 (PF_append (pf_sc_escapeHtmlOpt _) pf_sc_ptg37)
  case its =>
    refine PF_ite (pf_sc_itemsHtml hcur _ hits) ?_
    exact PF_append pf_sc_pni60 (PF_append pf_sc_mNoItems pf_sc_pni61)

theorem pf_sc_sectionsHtml {cur : Str} (hcur : '<' ∉ cur) :
    ∀ cats : List Category, CleanCats cats →
      PF scriptTag (sectionsHtml cur cats) := by
  intro cats
  induction cats with
  | nil => intro _; exact PF_nil _
  | cons cat cats ih =>
    intro h
    rw [sectionsHtml]
    exact PF_append (pf_sc_sectionHtml hcur cat (h cat (by simp)))
      (ih fun j hj => h j (by simp [hj]))

theorem pf_sc_navButtons :
    ∀ (cats : List Category) (i : Nat), CleanCats cats →
      PF scriptTag (navButtonsAux i cats) := by
  intro cats
  induction cats with
  | nil => intro i _; exact PF_nil _
  | cons cat cats ih =>
    intro i h
    obtain ⟨hid, hicon, -⟩ := h cat (by simp)
    rw [navButtonsAux]
    simp only [List.append_assoc]
    refine PF_append pf_sc_pbt43 (PF_append (PF_ite pf_sc_mActive (PF_nil _))
      (PF_append pf_sc_pbt44 (PF_append pf_sc_mDataCat
      (PF_append (PF_sc_of_clean hid) (PF_append pf_sc_pbt45
      (PF_append (PF_sc_of_clean (lt_not_mem_jsOr hicon (by simp)))
      (PF_append pf_sc_pbt46 (PF_append (pf_sc_escapeHtmlOpt _)
      (PF_append pf_sc_pbt47 (ih (i + 1) fun j hj => h j (by simp [hj])))))))))))

theorem pf_sc_navArea (cats : List Category) (h : CleanCats cats) :
    PF scriptTag (navArea cats) := by
  rw [navArea]
  refine PF_ite ?_ (PF_nil _)
  simp only [List.append_assoc]
  exact PF_append pf_sc_pnv40 (PF_append pf_sc_mNavOpen (PF_append pf_sc_pnv41
    (PF_append (pf_sc_navButtons cats 0 h) pf_sc_pnv42)))

theorem pf_sc_menuArea {cur : Str} (hcur : '<' ∉ cur) (cats : List Category)
    (h : CleanCats cats) : PF scriptTag (menuArea cur cats) := by
  rw [menuArea]
  refine PF_ite (pf_sc_sectionsHtml hcur cats h) ?_
  simp only [List.append_assoc]
  exact PF_append pf_sc_pme48 (PF_append pf_sc_mComingSoon pf_sc_pme49)

theorem navArea_nil : navArea [] = [] := by
  simp [navArea]

theorem menuArea_nil (cur : Str) :
    menuArea cur [] = pme48 ++ (mComingSoon ++ pme49) := by
  simp [menuArea, List.append_assoc]

/-- Under the cleanliness assumptions, the rendered document contains exactly
one occurrence of `<script>`: the opening tag of its own static script
block. -/
theorem sc_count_one {c : Cafe} {cats : List Category} (hc : CleanCafe c)
    (hcats : CleanCats cats) :
    countOcc scriptTag (generateMenuHTML c cats) = 1 := by
  have hc' := hc
  obtain ⟨hlogo, hph, hem, hwb, hig, hfb, hcur, hp1, hp2, hp3, hp4, hp5⟩ := hc'
  have pfThP : PF scriptTag (themePrimary c) :=
    PF_sc_of_clean (lt_not_mem_jsOr hp1 ltf_dfltPrimary)
  have pfThS : PF scriptTag (themeSecondary c) :=
    PF_sc_of_clean (lt_not_mem_jsOr hp2 ltf_dfltSecondary)
  have pfThA : PF scriptTag (themeAccent c) :=
    PF_sc_of_clean (lt_not_mem_jsOr hp3 ltf_dfltAccent)
  have pfThB : PF scriptTag (themeBackground c) :=
    PF_sc_of_clean (lt_not_mem_jsOr hp4 ltf_dfltBackground)
  have pfThT : PF scriptTag (themeText c) :=
    PF_sc_of_clean (lt_not_mem_jsOr hp5 ltf_dfltText)
  have hcc : '<' ∉ cafeCurrency c := lt_not_mem_jsOr hcur ltf_dfltCurrency
  have pfLogo : PF scriptTag
      (if truthy c.logo
        then pim32 ++ (rawStr c.logo ++ (pim33 ++ (escapeHtmlOpt c.name ++ pim34)))
        else plp35) :=
    PF_ite (PF_append pf_sc_pim32 (PF_append (PF_sc_of_clean hlogo)
      (PF_append pf_sc_pim33 (PF_append (pf_sc_escapeHtmlOpt _) pf_sc_pim34))))
      pf_sc_plp35
  have pfTag : PF scriptTag
      (if truthy c.tagline
        then ptg36 ++ (escapeHtmlOpt c.tagline ++ ptg37) else []) :=
    PF_ite (PF_append pf_sc_ptg36
      (PF_append (pf_sc_escapeHtmlOpt _) pf_sc_ptg37)) (PF_nil _)
  have pfAddr : PF scriptTag
      (if truthy c.address
        then pad38 ++ (escapeHtmlOpt c.address ++ ptg37) else []) :=
    PF_ite (PF_append pf_sc_pad38
      (PF_append (pf_sc_escapeHtmlOpt _) pf_sc_ptg37)) (PF_nil _)
  rw [generateMenuHTML]
  simp only [List.append_assoc]
  rw [pf_sc_pm1.peel, (pf_sc_escapeHtmlOpt c.name).peel, pf_sc_pm2.peel,
    (pf_sc_escapeHtml _).peel, pf_sc_pm3.peel, pf_sc_mVarPrim.peel,
    pfThP.peel, pf_sc_mSemi.peel, pf_sc_pm4.peel, pf_sc_mVarSec.peel,
    pfThS.peel, pf_sc_mSemi.peel, pf_sc_pm4.peel, pf_sc_mVarAcc.peel,
    pfThA.peel, pf_sc_mSemi.peel, pf_sc_pm4.peel, pf_sc_mVarBg.peel,
    pfThB.peel, pf_sc_mSemi.peel, pf_sc_pm4.peel, pf_sc_mVarTxt.peel,
    pfThT.peel, pf_sc_mSemi.peel]
  rw [pf_sc_pm8.peel, pf_sc_pm9.peel, pf_sc_pm10.peel, pf_sc_pm11.peel,
    pf_sc_pm12.peel, pf_sc_pm13.peel, pf_sc_pm14.peel, pf_sc_pm15.peel,
    pf_sc_pm16.peel, pf_sc_pm17.peel, pf_sc_pm18.peel, pf_sc_pm19.peel,
    pf_sc_pm20.peel]
  rw [pfLogo.peel, pf_sc_pm21.peel, pf_sc_mH1Open.peel,
    (pf_sc_escapeHtmlOpt c.name).peel, pf_sc_mH1Close.peel, pf_sc_pm21.peel,
    pfTag.peel, pf_sc_pm23.peel, (pf_sc_contactBar hc).peel,
    pf_sc_pm24.peel, (pf_sc_navArea cats hcats).peel, pf_sc_pm25.peel,
    (pf_sc_menuArea hcc cats hcats).peel, pf_sc_pm26.peel,
    (pf_sc_escapeHtmlOpt c.name).peel, pf_sc_pm27.peel, pfAddr.peel,
    pf_sc_pm4.peel, (pf_sc_socialLinks hc).peel, pf_sc_pm29.peel]
  exact sc_tailCount

/-- With no categories (and clean raw fields), the rendered document contains
no occurrence of `<nav` at all. -/
theorem nv_count_zero {c : Cafe} (hc : CleanCafe c) :
    countOcc navTag (generateMenuHTML c []) = 0 := by
  have hc' := hc
  obtain ⟨hlogo, hph, hem, hwb, hig, hfb, hcur, hp1, hp2, hp3, hp4, hp5⟩ := hc'
  have pfThP : PF navTag (themePrimary c) :=
    PF_nv_of_clean (lt_not_mem_jsOr hp1 ltf_dfltPrimary)
  have pfThS : PF navTag (themeSecondary c) :=
    PF_nv_of_clean (lt_not_mem_jsOr hp2 ltf_dfltSecondary)
  have pfThA : PF navTag (themeAccent c) :=
    PF_nv_of_clean (lt_not_mem_jsOr hp3 ltf_dfltAccent)
  have pfThB : PF navTag (themeBackground c) :=
    PF_nv_of_clean (lt_not_mem_jsOr hp4 ltf_dfltBackground)
  have pfThT : PF navTag (themeText c) :=
    PF_nv_of_clean (lt_not_mem_jsOr hp5 ltf_dfltText)
  have pfLogo : PF navTag
      (if truthy c.logo
        then pim32 ++ (rawStr c.logo ++ (pim33 ++ (escapeHtmlOpt c.name ++ pim34)))
        else plp35) :=
    PF_ite (PF_append pf_nv_pim32 (PF_append (PF_nv_of_clean hlogo)
      (PF_append pf_nv_pim33 (PF_append (pf_nv_escapeHtmlOpt _) pf_nv_pim34))))
      pf_nv_plp35
  have pfTag : PF navTag
      (if truthy c.tagline
        then ptg36 ++ (escapeHtmlOpt c.tagline ++ ptg37) else []) :=
    PF_ite (PF_append pf_nv_ptg36
      (PF_append (pf_nv_escapeHtmlOpt _) pf_nv_ptg37)) (PF_nil _)
  have pfAddr : PF navTag
      (if truthy c.address
        then pad38 ++ (escapeHtmlOpt c.address ++ ptg37) else []) :=
    PF_ite (PF_append pf_nv_pad38
      (PF_append (pf_nv_escapeHtmlOpt _) pf_nv_ptg37)) (PF_nil _)
  rw [generateMenuHTML, navArea_nil, menuArea_nil]
  simp only [List.append_assoc, List.nil_append]
  rw [pf_nv_pm1.peel, (pf_nv_escapeHtmlOpt c.name).peel, pf_nv_pm2.peel,
    (pf_nv_escapeHtml _).peel, pf_nv_pm3.peel, pf_nv_mVarPrim.peel,
    pfThP.peel, pf_nv_mSemi.peel, pf_nv_pm4.peel, pf_nv_mVarSec.peel,
    pfThS.peel, pf_nv_mSemi.peel, pf_nv_pm4.peel, pf_nv_mVarAcc.peel,
    pfThA.peel, pf_nv_mSemi.peel, pf_nv_pm4.peel, pf_nv_mVarBg.peel,
    pfThB.peel, pf_nv_mSemi.peel, pf_nv_pm4.peel, pf_nv_mVarTxt.peel,
    pfThT.peel, pf_nv_mSemi.peel]
  rw [pf_nv_pm8.peel, pf_nv_pm9.peel, pf_nv_pm10.peel, pf_nv_pm11.peel,
    pf_nv_pm12.peel, pf_nv_pm13.peel, pf_nv_pm14.peel, pf_nv_pm15.peel,
    pf_nv_pm16.peel, pf_nv_pm17.peel, pf_nv_pm18.peel, pf_nv_pm19.peel,
    pf_nv_pm20.peel]
  rw [pfLogo.peel, pf_nv_pm21.peel, pf_nv_mH1Open.peel,
    (pf_nv_escapeHtmlOpt c.name).peel, pf_nv_mH1Close.peel, pf_nv_pm21.peel,
    pfTag.peel, pf_nv_pm23.peel, (pf_nv_contactBar hc).peel,
    pf_nv_pm24.peel, pf_nv_pm25.peel, pf_nv_pme48.peel,
    pf_nv_mComingSoon.peel, pf_nv_pme49.peel, pf_nv_pm26.peel,
    (pf_nv_escapeHtmlOpt c.name).peel, pf_nv_pm27.peel, pfAddr.peel,
    pf_nv_pm4.peel, (pf_nv_socialLinks hc).peel, pf_nv_pm29.peel]
  exact nv_tailCount

/-! ### Walking the document structure for containment facts -/

theorem infix_skip (a : Str) {m rest : Str} (h : m <:+: rest) :
    m <:+: a ++ rest := by
  obtain ⟨s, t, rfl⟩ := h
  exact ⟨a ++ s, t, by simp [List.append_assoc]⟩

theorem infix_enter {m a : Str} (rest : Str) (h : m <:+: a) :
    m <:+: a ++ rest := by
  obtain ⟨s, t, rfl⟩ := h
  exact ⟨s, t ++ rest, by simp [List.append_assoc]⟩

theorem infix_here (m rest : Str) : m <:+: m ++ rest :=
  ⟨[], rest, by simp⟩

theorem infix_here2 (m₁ m₂ rest : Str) : (m₁ ++ m₂) <:+: m₁ ++ (m₂ ++ rest) :=
  ⟨[], rest, by simp [List.append_assoc]⟩

theorem infix_here3 (m₁ m₂ m₃ rest : Str) :
    (m₁ ++ (m₂ ++ m₃)) <:+: m₁ ++ (m₂ ++ (m₃ ++ rest)) :=
  ⟨[], rest, by simp [List.append_assoc]⟩

theorem infix_here4 (m₁ m₂ m₃ m₄ rest : Str) :
    (m₁ ++ (m₂ ++ (m₃ ++ m₄))) <:+: m₁ ++ (m₂ ++ (m₃ ++ (m₄ ++ rest))) :=
  ⟨[], rest, by simp [List.append_assoc]⟩

theorem suffix_skip (a : Str) {m rest : Str} (h : m <:+ rest) :
    m <:+ a ++ rest := by
  obtain ⟨t, rfl⟩ := h
  exact ⟨a ++ t, by simp [List.append_assoc]⟩

/-- The `h1` café-name heading, with the escaped name between the tags, is a
substring of every rendered document. -/
theorem h1_in_doc (c : Cafe) (cats : List Category) :
    (mH1Open ++ (escapeHtmlOpt c.name ++ mH1Close)) <:+:
      generateMenuHTML c cats := by
  rw [generateMenuHTML]
  simp only [List.append_assoc]
  repeat first
  | exact infix_here3 _ _ _ _
  | apply infix_skip

/-- Every rendered document ends with `</html>`. -/
theorem htmlEnd_suffix (c : Cafe) (cats : List Category) :
    mHtmlEnd <:+ generateMenuHTML c cats := by
  rw [generateMenuHTML]
  simp only [List.append_assoc]
  repeat first
  | exact List.suffix_refl _
  | apply suffix_skip

theorem theme_primary_in_doc (c : Cafe) (cats : List Category) :
    (mVarPrim ++ (themePrimary c ++ mSemi)) <:+: generateMenuHTML c cats := by
  rw [generateMenuHTML]
  simp only [List.append_assoc]
  repeat first
  | exact infix_here3 _ _ _ _
  | apply infix_skip

theorem theme_secondary_in_doc (c : Cafe) (cats : List Category) :
    (mVarSec ++ (themeSecondary c ++ mSemi)) <:+: generateMenuHTML c cats := by
  rw [generateMenuHTML]
  simp only [List.append_assoc]
  repeat first
  | exact infix_here3 _ _ _ _
  | apply infix_skip

theorem theme_accent_in_doc (c : Cafe) (cats : List Category) :
    (mVarAcc ++ (themeAccent c ++ mSemi)) <:+: generateMenuHTML c cats := by
  rw [generateMenuHTML]
  simp only [List.append_assoc]
  repeat first
  | exact infix_here3 _ _ _ _
  | apply infix_skip

theorem theme_background_in_doc (c : Cafe) (cats : List Category) :
    (mVarBg ++ (themeBackground c ++ mSemi)) <:+: generateMenuHTML c cats := by
  rw [generateMenuHTML]
  simp only [List.append_assoc]
  repeat first
  | exact infix_here3 _ _ _ _
  | apply infix_skip

theorem theme_text_in_doc (c : Cafe) (cats : List Category) :
    (mVarTxt ++ (themeText c ++ mSemi)) <:+: generateMenuHTML c cats := by
  rw [generateMenuHTML]
  simp only [List.append_assoc]
  repeat first
  | exact infix_here3 _ _ _ _
  | apply infix_skip

theorem navArea_in_doc (c : Cafe) (cats : List Category) :
    navArea cats <:+: generateMenuHTML c cats := by
  rw [generateMenuHTML]
  simp only [List.append_assoc]
  repeat first
  | exact infix_here _ _
  | apply infix_skip

theorem menuArea_in_doc (c : Cafe) (cats : List Category) :
    menuArea (cafeCurrency c) cats <:+: generateMenuHTML c cats := by
  rw [generateMenuHTML]
  simp only [List.append_assoc]
  repeat first
  | exact infix_here _ _
  | apply infix_skip

theorem menuArea_pos (cur : Str) {cats : List Category} (h : cats ≠ []) :
    menuArea cur cats = sectionsHtml cur cats := by
  rw [menuArea, if_pos (List.length_pos.mpr h)]

theorem navArea_pos {cats : List Category} (h : cats ≠ []) :
    navArea cats =
      pnv40 ++ (mNavOpen ++ (pnv41 ++ (navButtonsAux 0 cats ++ pnv42))) := by
  rw [navArea, if_pos (List.length_pos.mpr h)]
  simp [List.append_assoc]

theorem comingSoon_in_doc (c : Cafe) : mComingSoon <:+: generateMenuHTML c [] := by
  rw [generateMenuHTML, navArea_nil, menuArea_nil]
  simp only [List.append_assoc, List.nil_append]
  repeat first
  | exact infix_here _ _
  | apply infix_skip

theorem section_of_mem {cur : Str} {cat : Category} {cats : List Category}
    (h : cat ∈ cats) : sectionHtml cur cat <:+: sectionsHtml cur cats := by
  induction cats with
  | nil => exact absurd h (List.not_mem_nil cat)
  | cons d ds ih =>
    rw [sectionsHtml]
    rcases List.mem_cons.mp h with rfl | h'
    · exact infix_here _ _
    · exact infix_skip _ (ih h')

theorem noItems_in_section {cur : Str} {cat : Category}
    (h : truthyItems cat.items = false) :
    (pni60 ++ (mNoItems ++ pni61)) <:+: sectionHtml cur cat := by
  rw [sectionHtml]
  rw [if_neg (show ¬ truthyItems cat.items = true by simp [h])]
  simp only [List.append_assoc]
  repeat first
  | exact infix_here3 _ _ _ _
  | apply infix_skip

theorem button_in_navButtons {cat : Category} {cats : List Category}
    (h : cat ∈ cats) :
    ∀ i : Nat, (mDataCat ++ (cat.id ++ pbt45)) <:+: navButtonsAux i cats := by
  induction cats with
  | nil => exact absurd h (List.not_mem_nil cat)
  | cons d ds ih =>
    intro i
    rw [navButtonsAux]
    simp only [List.append_assoc]
    rcases List.mem_cons.mp h with rfl | h'
    · apply infix_skip
      apply infix_skip
      apply infix_skip
      exact infix_here3 _ _ _ _
    · apply infix_skip
      apply infix_skip
      apply infix_skip
      apply infix_skip
      apply infix_skip
      apply infix_skip
      apply infix_skip
      apply infix_skip
      apply infix_skip
      apply infix_skip
      exact ih h' (i + 1)

theorem escScript_in_escape {nm : Str} (h : scriptTag <:+: nm) :
    escScriptTag <:+: escapeHtml nm := by
  have h2 := escapeHtml_sub h
  have e : escapeHtml scriptTag = escScriptTag := by decide
  rwa [e] at h2

theorem count1_peel {p a : Str} {b : Str} (df : dangerFree p a)
    (h1 : countOcc p a = 1) : countOcc p (a ++ b) = 1 + countOcc p b := by
  rw [countOcc_append p a b df, h1]

theorem jsOr_ne_nil {v : Option Str} {d : Str} (hd : d ≠ []) :
    jsOr v d ≠ [] := by
  cases v with
  | none => simpa [jsOr] using hd
  | some s =>
    rw [jsOr]
    split
    · exact hd
    · next hs => simpa [List.isEmpty_iff] using hs

theorem themePrimary_ne_nil (c : Cafe) : themePrimary c ≠ [] :=
  jsOr_ne_nil dfltPrimary_ne_nil

theorem themeSecondary_ne_nil (c : Cafe) : themeSecondary c ≠ [] :=
  jsOr_ne_nil dfltSecondary_ne_nil

theorem themeAccent_ne_nil (c : Cafe) : themeAccent c ≠ [] :=
  jsOr_ne_nil dfltAccent_ne_nil

theorem themeBackground_ne_nil (c : Cafe) : themeBackground c ≠ [] :=
  jsOr_ne_nil dfltBackground_ne_nil

theorem themeText_ne_nil (c : Cafe) : themeText c ≠ [] :=
  jsOr_ne_nil dfltText_ne_nil

/-- The price text `currency ++ toFixed2(price)` of an item card is a
substring of the card's markup. -/
theorem price_in_item (it : Item) (cur : Str) :
    (cur ++ jsPriceStr it.price) <:+: generateItemHTML it cur := by
  rw [generateItemHTML]
  simp only [List.append_assoc]
  repeat first
  | exact infix_here2 _ _ _
  | apply infix_skip

/-- When `original_price` is truthy, the struck-through span with the
original price is a substring of the card's markup. -/
theorem orig_in_item (it : Item) (cur : Str)
    (h : truthyRat it.original_price = true) :
    (mOrigOpen ++ (cur ++ (jsPriceStr it.original_price ++ pic57))) <:+:
      generateItemHTML it cur := by
  rw [generateItemHTML]
  rw [if_pos h]
  simp only [List.append_assoc]
  repeat first
  | exact infix_here4 _ _ _ _ _
  | apply infix_skip

/-- When at least one badge flag is set, the badge row is a substring of the
card's markup, holding exactly the concatenated badges in order. -/
theorem badgeRow_in_item (it : Item) (cur : Str) (h : itemBadges it ≠ []) :
    (mBadgesOpen ++ ((itemBadges it).flatten ++ mDivClose)) <:+:
      generateItemHTML it cur := by
  rw [generateItemHTML]
  rw [if_pos (List.length_pos.mpr h)]
  simp only [List.append_assoc]
  repeat first
  | exact infix_here3 _ _ _ _
  | apply infix_skip

/-- The digits of `digitChar` are digit characters. -/
theorem digitChar_isDigit : ∀ d, d < 10 → (digitChar d).isDigit = true := by
  decide

/-- `toFixed(2)` output always ends in a dot followed by exactly two digit
characters. -/
theorem jsToFixed2_shape (q : Rat) :
    ∃ a d₁ d₂, jsToFixed2 q = a ++ ('.' :: [d₁, d₂]) ∧
      d₁.isDigit = true ∧ d₂.isDigit = true := by
  rw [jsToFixed2]
  split
  · refine ⟨'-' :: natToStr (toFixed2Nat (-q) / 100),
      digitChar (toFixed2Nat (-q) % 100 / 10), digitChar (toFixed2Nat (-q) % 10),
      ?_, digitChar_isDigit _ (by omega), digitChar_isDigit _ (by omega)⟩
    simp [jsToFixed2Pos, List.append_assoc]
  · refine ⟨natToStr (toFixed2Nat q / 100),
      digitChar (toFixed2Nat q % 100 / 10), digitChar (toFixed2Nat q % 10),
      ?_, digitChar_isDigit _ (by omega), digitChar_isDigit _ (by omega)⟩
    simp [jsToFixed2Pos]

/-- The badge list equals the fixed-priority filter of the six flags:
bestseller, new, vegan, vegetarian, spicy, gluten-free — independent of how
the item declares them. -/
theorem itemBadges_fixed_order (it : Item) :
    itemBadges it =
      (([(bBestseller, it.is_bestseller), (bNew, it.is_new),
         (bVegan, it.is_vegan), (bVegetarian, it.is_vegetarian),
         (bSpicy, it.is_spicy), (bGf, it.is_gluten_free)].filter
        (fun b => b.2)).map (fun b => b.1)) := by
  obtain ⟨n, d, p, op, im, cal, v, vg, gf, sp, bs, nw⟩ := it
  cases v <;> cases vg <;> cases gf <;> cases sp <;> cases bs <;> cases nw <;>
    rfl

/-! ## Claims -/

/-- C4: the renderer is deterministic — two invocations of `generateMenuHTML`
on identical café and category inputs produce byte-identical documents. The
embedding is a pure function of its two arguments (the source reads no clock,
storage or randomness inside `generateMenuHTML`), so equal inputs give equal
output strings. -/
theorem C4_deterministic :
    ∀ (c₁ c₂ : Cafe) (cats₁ cats₂ : List Category),
      c₁ = c₂ → cats₁ = cats₂ →
      generateMenuHTML c₁ cats₁ = generateMenuHTML c₂ cats₂ := by
  intro c₁ c₂ cats₁ cats₂ h1 h2
  rw [h1, h2]

theorem C4_deterministic_witness :
    generateMenuHTML cafeBlank [] = generateMenuHTML cafeBlank [] :=
  C4_deterministic cafeBlank cafeBlank [] [] rfl rfl

/-- C3 (amended): the renderer never fails: for every café — in particular
one missing both `name` and `slug` — it returns a complete document (ending
in `</html>`); a missing name renders as the empty string between the `h1`
tags (`escapeHtml` maps the absent field to `''`), rather than failing
fast. -/
theorem C3_never_fails :
    ∀ (c : Cafe) (cats : List Category),
      mHtmlEnd <:+ generateMenuHTML c cats ∧
      (c.name = none →
        (mH1Open ++ mH1Close) <:+: generateMenuHTML c cats) := by
  intro c cats
  refine ⟨htmlEnd_suffix c cats, fun h => ?_⟩
  have h1 := h1_in_doc c cats
  rw [h] at h1
  rw [show escapeHtmlOpt none = [] from rfl] at h1
  simpa using h1

theorem C3_never_fails_witness :
    mHtmlEnd <:+ generateMenuHTML cafeBlank [] ∧
    (mH1Open ++ mH1Close) <:+: generateMenuHTML cafeBlank [] :=
  ⟨(C3_never_fails cafeBlank []).1, (C3_never_fails cafeBlank []).2 rfl⟩

/-- C3 counterexample: called with a café whose `name` and `slug` are both
absent, `generateMenuHTML` does not fail with a descriptive error — it
emits a complete document ending in `</html>`, whose `h1` heading is simply
empty. -/
theorem C3_counterexample :
    mHtmlEnd <:+ generateMenuHTML cafeBlank [] ∧
    (mH1Open ++ mH1Close) <:+: generateMenuHTML cafeBlank [] := by
  refine ⟨htmlEnd_suffix cafeBlank [], ?_⟩
  have h1 := h1_in_doc cafeBlank []
  rw [show escapeHtmlOpt cafeBlank.name = [] from rfl] at h1
  simpa using h1

/-- C8: the five `:root` theme custom properties are always emitted with a
nonempty value; each is `--<name>: <value>;` with the value taken from the
café column or, when the column is unset, the documented distinct default
literal (`#D4A574`, `#8B7355`, `#F5E6D3`, `#FAF7F2`, `#4A4A4A`). -/
theorem C8_theme_defaults :
    ∀ (c : Cafe) (cats : List Category),
      ((mVarPrim ++ (themePrimary c ++ mSemi)) <:+: generateMenuHTML c cats) ∧
      ((mVarSec ++ (themeSecondary c ++ mSemi)) <:+: generateMenuHTML c cats) ∧
      ((mVarAcc ++ (themeAccent c ++ mSemi)) <:+: generateMenuHTML c cats) ∧
      ((mVarBg ++ (themeBackground c ++ mSemi)) <:+: generateMenuHTML c cats) ∧
      ((mVarTxt ++ (themeText c ++ mSemi)) <:+: generateMenuHTML c cats) ∧
      themePrimary c ≠ [] ∧ themeSecondary c ≠ [] ∧ themeAccent c ≠ [] ∧
      themeBackground c ≠ [] ∧ themeText c ≠ [] ∧
      (c.primary_color = none → themePrimary c = dfltPrimary) ∧
      (c.secondary_color = none → themeSecondary c = dfltSecondary) ∧
      (c.accent_color = none → themeAccent c = dfltAccent) ∧
      (c.background_color = none → themeBackground c = dfltBackground) ∧
      (c.text_color = none → themeText c = dfltText) ∧
      [dfltPrimary, dfltSecondary, dfltAccent, dfltBackground,
        dfltText].Nodup := by
  intro c cats
  refine ⟨theme_primary_in_doc c cats, theme_secondary_in_doc c cats,
    theme_accent_in_doc c cats, theme_background_in_doc c cats,
    theme_text_in_doc c cats, themePrimary_ne_nil c, themeSecondary_ne_nil c,
    themeAccent_ne_nil c, themeBackground_ne_nil c, themeText_ne_nil c,
    ?_, ?_, ?_, ?_, ?_, dflt_distinct⟩
  · intro h; rw [themePrimary, h]; rfl
  · intro h; rw [themeSecondary, h]; rfl
  · intro h; rw [themeAccent, h]; rfl
  · intro h; rw [themeBackground, h]; rfl
  · intro h; rw [themeText, h]; rfl

theorem C8_theme_defaults_witness :
    themePrimary cafeBlank = dfltPrimary ∧
    themeSecondary cafeBlank = dfltSecondary ∧
    themeAccent cafeBlank = dfltAccent ∧
    themeBackground cafeBlank = dfltBackground ∧
    themeText cafeBlank = dfltText ∧
    (mVarPrim ++ (themePrimary cafeBlank ++ mSemi)) <:+:
      generateMenuHTML cafeBlank [] :=
  ⟨(C8_theme_defaults cafeBlank []).2.2.2.2.2.2.2.2.2.2.1 rfl,
   (C8_theme_defaults cafeBlank []).2.2.2.2.2.2.2.2.2.2.2.1 rfl,
   (C8_theme_defaults cafeBlank []).2.2.2.2.2.2.2.2.2.2.2.2.1 rfl,
   (C8_theme_defaults cafeBlank []).2.2.2.2.2.2.2.2.2.2.2.2.2.1 rfl,
   (C8_theme_defaults cafeBlank []).2.2.2.2.2.2.2.2.2.2.2.2.2.2.1 rfl,
   (C8_theme_defaults cafeBlank []).1⟩

/-- C9: requesting a stored but unpublished café's menu without
`preview=true` yields the 404 "not found" response, whose body carries only
the error string — no café or menu data. -/
theorem C9_unpublished_404 :
    ∀ (cafeRow : Option PubCafeRow) (cats : List PubCatRow)
      (items : List PubItemRow) (preview : Option Str) (c : PubCafeRow),
      cafeRow = some c → c.is_published = 0 →
      preview ≠ some (("true").toList) →
      getMenuBySlug cafeRow cats items preview =
        PubResponse.notFound (("Menu not found or not published yet").toList) ∧
      (getMenuBySlug cafeRow cats items preview).status = 404 := by
  intro cafeRow cats items preview c h1 h2 h3
  subst h1
  have he : getMenuBySlug (some c) cats items preview =
      PubResponse.notFound
        (("Menu not found or not published yet").toList) := by
    simp only [getMenuBySlug]
    rw [if_pos ⟨h2, h3⟩]
  exact ⟨he, by rw [he]; rfl⟩

theorem C9_unpublished_404_witness :
    getMenuBySlug (some pubCafeUnpub) [] [] none =
      PubResponse.notFound
        (("Menu not found or not published yet").toList) ∧
    (getMenuBySlug (some pubCafeUnpub) [] [] none).status = 404 :=
  C9_unpublished_404 (some pubCafeUnpub) [] [] none pubCafeUnpub rfl rfl
    (by decide)

/-- C5: for a café with no categories the document carries the
"Menu Coming Soon" empty-state marker and no `<nav` at all (given the raw
attribute-position fields are `<`-free); and in general the
`<nav class="categories-nav">` element opening is present iff there is at
least one category. -/
theorem C5_empty_categories :
    ∀ (c : Cafe) (cats : List Category), CleanCafe c →
      (cats = [] →
        mComingSoon <:+: generateMenuHTML c cats ∧
        countOcc navTag (generateMenuHTML c cats) = 0) ∧
      (mNavOpen <:+: generateMenuHTML c cats ↔ cats ≠ []) := by
  intro c cats hc
  constructor
  · rintro rfl
    exact ⟨comingSoon_in_doc c, nv_count_zero hc⟩
  · constructor
    · intro hnav heq
      subst heq
      have h0 := nv_count_zero hc
      have hin : navTag <:+: generateMenuHTML c [] :=
        List.IsInfix.trans navTag_pre_mNavOpen.isInfix hnav
      have hpos := (countOcc_pos_iff (generateMenuHTML c [])
        (by decide : navTag ≠ [])).mpr hin
      omega
    · intro hne
      have h1 : mNavOpen <:+: navArea cats := by
        rw [navArea_pos hne]
        apply infix_skip
        exact infix_here _ _
      exact h1.trans (navArea_in_doc c cats)

theorem C5_empty_categories_witness :
    (mComingSoon <:+: generateMenuHTML cafeBlank [] ∧
      countOcc navTag (generateMenuHTML cafeBlank []) = 0) ∧
    ¬ mNavOpen <:+: generateMenuHTML cafeBlank [] :=
  ⟨(C5_empty_categories cafeBlank [] (by decide)).1 rfl,
   fun h =>
    ((C5_empty_categories cafeBlank [] (by decide)).2.mp h) rfl⟩

/-- C6: a category present in the input with an (explicitly) empty item list
still gets its section in the document, that section carries the
"No items in this category yet." placeholder, and the category-navigation
bar still holds a button for the category (its `data-category` attribute
carries the category's id). -/
theorem C6_empty_item_list :
    ∀ (c : Cafe) (cats : List Category) (cat : Category),
      cat ∈ cats → cat.items = some [] →
      (sectionHtml (cafeCurrency c) cat <:+: generateMenuHTML c cats) ∧
      ((pni60 ++ (mNoItems ++ pni61)) <:+: sectionHtml (cafeCurrency c) cat) ∧
      ((mDataCat ++ (cat.id ++ pbt45)) <:+: generateMenuHTML c cats) := by
  intro c cats cat hmem hitems
  have hne : cats ≠ [] := by
    rintro rfl
    exact absurd hmem (List.not_mem_nil cat)
  have hsec : sectionHtml (cafeCurrency c) cat <:+: generateMenuHTML c cats := by
    have h1 := @section_of_mem (cafeCurrency c) _ _ hmem
    have h2 := menuArea_in_doc c cats
    rw [menuArea_pos _ hne] at h2
    exact h1.trans h2
  refine ⟨hsec, noItems_in_section (by rw [hitems]; decide), ?_⟩
  have hb := button_in_navButtons hmem 0
  have hn : (mDataCat ++ (cat.id ++ pbt45)) <:+: navArea cats := by
    rw [navArea_pos hne]
    apply infix_skip
    apply infix_skip
    apply infix_skip
    exact infix_enter _ hb
  exact hn.trans (navArea_in_doc c cats)

theorem C6_empty_item_list_witness :
    (sectionHtml (cafeCurrency cafeBlank) catEmptyItemsW <:+:
      generateMenuHTML cafeBlank [catEmptyItemsW]) ∧
    ((pni60 ++ (mNoItems ++ pni61)) <:+:
      sectionHtml (cafeCurrency cafeBlank) catEmptyItemsW) ∧
    ((mDataCat ++ (catEmptyItemsW.id ++ pbt45)) <:+:
      generateMenuHTML cafeBlank [catEmptyItemsW]) :=
  C6_empty_item_list cafeBlank [catEmptyItemsW] catEmptyItemsW (by simp) rfl

/-- C7: an item card's badge row holds exactly the badges whose flags are
true, in the fixed priority order bestseller, new, vegan, vegetarian, spicy,
gluten-free (the filter below lists the badges in that order, so the output
is independent of any declaration order); when at least one flag is set the
row appears in the card as `<div class="item-badges">…</div>`. -/
theorem C7_badge_order :
    ∀ (it : Item) (cur : Str),
      itemBadges it =
        (([(bBestseller, it.is_bestseller), (bNew, it.is_new),
           (bVegan, it.is_vegan), (bVegetarian, it.is_vegetarian),
           (bSpicy, it.is_spicy), (bGf, it.is_gluten_free)].filter
          (fun b => b.2)).map (fun b => b.1)) ∧
      (itemBadges it ≠ [] →
        (mBadgesOpen ++ ((itemBadges it).flatten ++ mDivClose)) <:+:
          generateItemHTML it cur) :=
  fun it cur => ⟨itemBadges_fixed_order it, badgeRow_in_item it cur⟩

theorem C7_badge_order_witness :
    itemBadges itemBadged = [bBestseller, bNew, bVegan] ∧
    (mBadgesOpen ++ ((itemBadges itemBadged).flatten ++ mDivClose)) <:+:
      generateItemHTML itemBadged dfltCurrency :=
  ⟨rfl,
   (C7_badge_order itemBadged dfltCurrency).2
    (by rw [show itemBadges itemBadged = [bBestseller, bNew, bVegan] from rfl]
        exact List.cons_ne_nil _ _)⟩

/-- C10, counterexample to the original claim: on a concrete café and a
category row carrying no `items` field, the deploy generate route obtains no
document at all — its unbound strict-mode method call throws a TypeError at
the first `this.escapeHtml` substitution, and the route's `catch` answers
500 "Failed to generate deployment files" instead of a document in which
every category section shows the placeholder. -/
theorem C10_counterexample :
    deployGenerate cafeBlank [catNoItemsW] [itemPlain] =
      .failed 500 (("Failed to generate deployment files").toList) ∧
    ∀ html, deployGenerate cafeBlank [catNoItemsW] [itemPlain] ≠
      DeployResult.generated html := by
  refine ⟨rfl, ?_⟩
  intro html h
  rw [show deployGenerate cafeBlank [catNoItemsW] [itemPlain] =
        .failed 500 (("Failed to generate deployment files").toList) from rfl] at h
  exact DeployResult.noConfusion h

/-- C10 (corrected): `generateMenuHTML` itself reads items only from each
category's `items` field — invoked bound (`self = some ()`) it completes and
renders every category row lacking that field with the per-category
"No items in this category yet." placeholder inside that category's section
of the document; but the deploy generate route calls the method destructured
from the exported instance, so the call runs with `this = undefined`, the
first `this.escapeHtml` substitution throws a TypeError before any output
exists, and the route answers 500 with a fixed error body without obtaining
any document (the ungrouped `items` argument never matters). -/
theorem C10_ungrouped_items :
    ∀ (c : Cafe) (cats : List Category) (items : List Item),
      generateMenuHTMLCall (some ()) c cats = .ok (generateMenuHTML c cats) ∧
      mHtmlEnd <:+ generateMenuHTML c cats ∧
      (∀ cat ∈ cats, cat.items = none →
        sectionHtml (cafeCurrency c) cat <:+: generateMenuHTML c cats ∧
        (pni60 ++ (mNoItems ++ pni61)) <:+:
          sectionHtml (cafeCurrency c) cat) ∧
      deployGenerate c cats items =
        .failed 500 (("Failed to generate deployment files").toList) := by
  intro c cats items
  refine ⟨rfl, htmlEnd_suffix c cats, ?_, rfl⟩
  intro cat hmem hnone
  have hne : cats ≠ [] := by
    rintro rfl
    exact absurd hmem (List.not_mem_nil cat)
  constructor
  · have h1 := @section_of_mem (cafeCurrency c) _ _ hmem
    have h2 := menuArea_in_doc c cats
    rw [menuArea_pos _ hne] at h2
    exact h1.trans h2
  · exact noItems_in_section (by rw [hnone]; decide)

theorem C10_ungrouped_items_witness :
    generateMenuHTMLCall (some ()) cafeBlank [catNoItemsW] =
      .ok (generateMenuHTML cafeBlank [catNoItemsW]) ∧
    mHtmlEnd <:+ generateMenuHTML cafeBlank [catNoItemsW] ∧
    (sectionHtml (cafeCurrency cafeBlank) catNoItemsW <:+:
        generateMenuHTML cafeBlank [catNoItemsW] ∧
      (pni60 ++ (mNoItems ++ pni61)) <:+:
        sectionHtml (cafeCurrency cafeBlank) catNoItemsW) ∧
    deployGenerate cafeBlank [catNoItemsW] [itemPlain] =
      .failed 500 (("Failed to generate deployment files").toList) := by
  have h := C10_ungrouped_items cafeBlank [catNoItemsW] [itemPlain]
  exact ⟨h.1, h.2.1, h.2.2.1 catNoItemsW (by simp) rfl, h.2.2.2⟩

theorem ratFloor_eq_intFloor (q : Rat) : q.floor = ⌊q⌋ := by
  rw [Rat.floor_def', Rat.floor_def]

theorem toFixed2Nat_35 : toFixed2Nat ((7 : Rat) / 2) = 350 := by
  rw [toFixed2Nat, ratFloor_eq_intFloor]
  have h : (7 : Rat) / 2 * 100 + 1 / 2 = 701 / 2 := by norm_num
  rw [h]
  have h2 : ⌊(701 : Rat) / 2⌋ = 350 := by
    rw [Int.floor_eq_iff]
    constructor <;> norm_num
  rw [h2]
  rfl

theorem toFixed2Nat_zero : toFixed2Nat 0 = 0 := by
  rw [toFixed2Nat, ratFloor_eq_intFloor]
  have h : (0 : Rat) * 100 + 1 / 2 = 1 / 2 := by norm_num
  rw [h]
  have h2 : ⌊(1 : Rat) / 2⌋ = 0 := by
    rw [Int.floor_eq_iff]
    constructor <;> norm_num
  rw [h2]
  rfl

theorem jsPriceStr_zero : jsPriceStr (some 0) = ("0.00").toList := by
  show jsToFixed2 0 = ("0.00").toList
  rw [jsToFixed2, if_neg (by norm_num)]
  show natToStr (toFixed2Nat 0 / 100) ++
      ('.' :: [digitChar (toFixed2Nat 0 % 100 / 10),
        digitChar (toFixed2Nat 0 % 10)]) = ("0.00").toList
  rw [toFixed2Nat_zero]
  decide

theorem jsToFixed2_35 : jsToFixed2 ((7 : Rat) / 2) = ("3.50").toList := by
  rw [jsToFixed2, if_neg (by norm_num)]
  show natToStr (toFixed2Nat ((7 : Rat) / 2) / 100) ++
      ('.' :: [digitChar (toFixed2Nat ((7 : Rat) / 2) % 100 / 10),
        digitChar (toFixed2Nat ((7 : Rat) / 2) % 10)]) = ("3.50").toList
  rw [toFixed2Nat_35]
  decide

/-- C2 (amended): the price text of every item card is the currency symbol
followed by `toFixed(2)` of the price — a dot and exactly two decimal
digits, e.g. `3.5` renders as `3.50` — with the struck-through original
price after it when `original_price` is present and nonzero; a zero price
renders as `0.00`, but a missing (NULL) price renders as the currency
symbol followed by `NaN` (`parseFloat(undefined).toFixed(2)`), not
`0.00`. -/
theorem C2_price_rendering :
    ∀ (it : Item) (cur : Str),
      ((cur ++ jsPriceStr it.price) <:+: generateItemHTML it cur) ∧
      (∀ q : Rat, it.price = some q →
        ∃ a d₁ d₂, jsPriceStr it.price = a ++ ('.' :: [d₁, d₂]) ∧
          d₁.isDigit = true ∧ d₂.isDigit = true) ∧
      (it.price = some 0 → jsPriceStr it.price = ("0.00").toList) ∧
      (it.price = none → jsPriceStr it.price = ("NaN").toList) ∧
      (truthyRat it.original_price = true →
        (mOrigOpen ++ (cur ++ (jsPriceStr it.original_price ++ pic57))) <:+:
          generateItemHTML it cur) ∧
      jsToFixed2 ((7 : Rat) / 2) = ("3.50").toList := by
  intro it cur
  refine ⟨price_in_item it cur, ?_, ?_, ?_, orig_in_item it cur,
    jsToFixed2_35⟩
  · intro q hq
    rw [hq]
    exact jsToFixed2_shape q
  · intro hq
    rw [hq]
    exact jsPriceStr_zero
  · intro hq
    rw [hq]
    rfl

theorem C2_price_rendering_witness :
    ((dfltCurrency ++ jsPriceStr itemW2.price) <:+:
      generateItemHTML itemW2 dfltCurrency) ∧
    jsPriceStr itemW2.price = ("3.50").toList ∧
    ((mOrigOpen ++ (dfltCurrency ++ (jsPriceStr itemW2.original_price ++
      pic57))) <:+: generateItemHTML itemW2 dfltCurrency) :=
  ⟨(C2_price_rendering itemW2 dfltCurrency).1,
   (C2_price_rendering itemW2 dfltCurrency).2.2.2.2.2,
   (C2_price_rendering itemW2 dfltCurrency).2.2.2.2.1 (by decide)⟩

/-- C2 counterexample: an item whose price column is NULL renders its price
text as the currency symbol followed by `NaN` — not `0.00` as the claim
states (`parseFloat(undefined)` is `NaN` and `NaN.toFixed(2)` is
`"NaN"`). -/
theorem C2_counterexample :
    jsPriceStr itemNoPrice.price = ("NaN").toList ∧
    ("NaN").toList ≠ ("0.00").toList ∧
    (dfltCurrency ++ jsPriceStr itemNoPrice.price) <:+:
      generateItemHTML itemNoPrice dfltCurrency :=
  ⟨rfl, by decide, price_in_item itemNoPrice dfltCurrency⟩

/-- C1 (amended): the renderer escapes every user text field with the
ordered five-replacement transform (`escapeHtml`, applied once at each
insertion).  For a café whose name contains `<script>`, provided the fields
the renderer interpolates raw into attribute positions (logo, phone, email,
website, social handles, currency, colours, category ids/icons, item
images) contain no `<`, the document shows `&lt;script&gt;` inside the
name's `h1` heading and contains exactly one raw `<script>` — the opening
tag of its own static script block — so never one outside it. -/
theorem C1_script_escaping :
    ∀ (c : Cafe) (cats : List Category) (nm : Str),
      c.name = some nm → scriptTag <:+: nm → CleanCafe c → CleanCats cats →
      ((mH1Open ++ (escapeHtml nm ++ mH1Close)) <:+:
        generateMenuHTML c cats) ∧
      escScriptTag <:+: escapeHtml nm ∧
      countOcc scriptTag (generateMenuHTML c cats) = 1 := by
  intro c cats nm hnm hs hc hcats
  refine ⟨?_, escScript_in_escape hs, sc_count_one hc hcats⟩
  have h1 := h1_in_doc c cats
  rw [hnm] at h1
  exact h1

theorem C1_script_escaping_witness :
    ((mH1Open ++ (escapeHtml nmC1 ++ mH1Close)) <:+:
      generateMenuHTML cafeC1w []) ∧
    escScriptTag <:+: escapeHtml nmC1 ∧
    countOcc scriptTag (generateMenuHTML cafeC1w []) = 1 :=
  C1_script_escaping cafeC1w [] nmC1 rfl (by decide) (by decide) (by decide)

/-- C1 counterexample: a café whose name contains `<script>` but whose logo
URL field is the string `<script>` produces a document with two raw
occurrences of `<script>`: the renderer interpolates the logo into the
`src` attribute without escaping, so a raw `<script>` appears outside the
document's own static script block (which accounts for exactly one
occurrence), refuting the unconditional claim. -/
theorem C1_counterexample :
    countOcc scriptTag (generateMenuHTML cafeC1x []) = 2 := by
  have pfTh1 : PF scriptTag (themePrimary cafeC1x) :=
    PF_sc_of_clean (lt_not_mem_jsOr (by decide) ltf_dfltPrimary)
  have pfTh2 : PF scriptTag (themeSecondary cafeC1x) :=
    PF_sc_of_clean (lt_not_mem_jsOr (by decide) ltf_dfltSecondary)
  have pfTh3 : PF scriptTag (themeAccent cafeC1x) :=
    PF_sc_of_clean (lt_not_mem_jsOr (by decide) ltf_dfltAccent)
  have pfTh4 : PF scriptTag (themeBackground cafeC1x) :=
    PF_sc_of_clean (lt_not_mem_jsOr (by decide) ltf_dfltBackground)
  have pfTh5 : PF scriptTag (themeText cafeC1x) :=
    PF_sc_of_clean (lt_not_mem_jsOr (by decide) ltf_dfltText)
  have eCon : generateContactBar cafeC1x = [] := rfl
  have eSoc : generateSocialLinks cafeC1x = [] := rfl
  rw [generateMenuHTML, navArea_nil, menuArea_nil, eCon, eSoc]
  rw [if_pos (show truthy cafeC1x.logo = true by decide)]
  rw [if_neg (show ¬ truthy cafeC1x.tagline = true by decide)]
  rw [if_neg (show ¬ truthy cafeC1x.address = true by decide)]
  simp only [List.append_assoc, List.nil_append, List.append_nil]
  rw [pf_sc_pm1.peel, (pf_sc_escapeHtmlOpt cafeC1x.name).peel, pf_sc_pm2.peel,
    (pf_sc_escapeHtml _).peel, pf_sc_pm3.peel, pf_sc_mVarPrim.peel,
    pfTh1.peel, pf_sc_mSemi.peel, pf_sc_pm4.peel, pf_sc_mVarSec.peel,
    pfTh2.peel, pf_sc_mSemi.peel, pf_sc_pm4.peel, pf_sc_mVarAcc.peel,
    pfTh3.peel, pf_sc_mSemi.peel, pf_sc_pm4.peel, pf_sc_mVarBg.peel,
    pfTh4.peel, pf_sc_mSemi.peel, pf_sc_pm4.peel, pf_sc_mVarTxt.peel,
    pfTh5.peel, pf_sc_mSemi.peel]
  rw [pf_sc_pm8.peel, pf_sc_pm9.peel, pf_sc_pm10.peel, pf_sc_pm11.peel,
    pf_sc_pm12.peel, pf_sc_pm13.peel, pf_sc_pm14.peel, pf_sc_pm15.peel,
    pf_sc_pm16.peel, pf_sc_pm17.peel, pf_sc_pm18.peel, pf_sc_pm19.peel,
    pf_sc_pm20.peel, pf_sc_pim32.peel]
  rw [count1_peel
    (dangerFree_check scriptTag (rawStr cafeC1x.logo) (by decide))
    (show countOcc scriptTag (rawStr cafeC1x.logo) = 1 by decide)]
  rw [pf_sc_pim33.peel, (pf_sc_escapeHtmlOpt cafeC1x.name).peel,
    pf_sc_pim34.peel, pf_sc_pm21.peel, pf_sc_mH1Open.peel,
    (pf_sc_escapeHtmlOpt cafeC1x.name).peel, pf_sc_mH1Close.peel,
    pf_sc_pm21.peel, pf_sc_pm23.peel, pf_sc_pm24.peel, pf_sc_pm25.peel,
    pf_sc_pme48.peel, pf_sc_mComingSoon.peel, pf_sc_pme49.peel,
    pf_sc_pm26.peel, (pf_sc_escapeHtmlOpt cafeC1x.name).peel,
    pf_sc_pm27.peel, pf_sc_pm4.peel, pf_sc_pm29.peel, sc_tailCount]
